import Mathlib

/-!
# Verification of the cuMpSGEMM kernel-selection / dispatch layer

Shallow embedding of the dispatch layer of cuMpSGEMM (`src/handle.cu`: the
module-code derivation `gen_module_code`, the kernel-variant selection loop in
`cumpsgemm::gemm` and `cumpsgemm::gemm_stridedBatch`, the strided-batch
decomposition policy, the build-time kernel-module registration performed by
`cuMpSGEMM_create`, and the control-surface helpers of the Python binding
`python/src/main.cpp`).

Machine integers (`uint64_t`, `unsigned`) are modelled as `Nat`; the layer's
own documentation declares overflowing dimensions undefined behavior at this
level, so arithmetic is not wrapped.  Device-side effects (kernel launches,
statistics-counter traffic) are modelled as an explicit event trace.
-/

/-- `cublasOperation_t` values used by the dispatch layer. -/
inductive cublasOperation_t where
  | CUBLAS_OP_N
  | CUBLAS_OP_T
  | CUBLAS_OP_C
deriving DecidableEq, Repr, Fintype

/-- `cuMpSGEMM_compute_mode_t` (the full public enum from the binding). -/
inductive cuMpSGEMM_compute_mode_t where
  | CUMPSGEMM_CUBLAS
  | CUMPSGEMM_FP16TCEC
  | CUMPSGEMM_TF32TCEC
  | CUMPSGEMM_FP16TC
  | CUMPSGEMM_TF32TC
  | CUMPSGEMM_CUBLAS_SIMT
  | CUMPSGEMM_CUBLAS_FP16TC
  | CUMPSGEMM_CUBLAS_TF32TC
  | CUMPSGEMM_DRY_RUN
  | CUMPSGEMM_AUTO
deriving DecidableEq, Repr, Fintype

/-- The element type `T` a GEMM entry point is instantiated at
(`float` for `cuMpSGEMM_sgemm*`, `cuComplex` for `cuMpSGEMM_cgemm*`). -/
inductive io_t where
  | float
  | cuComplex
deriving DecidableEq, Repr, Fintype

/-- `cublasStatus_t` values appearing in the dispatch layer. -/
inductive cublasStatus_t where
  | CUBLAS_STATUS_SUCCESS
  | CUBLAS_STATUS_INTERNAL_ERROR
deriving DecidableEq, Repr

namespace cumpsgemm

namespace kernel_module_code

/-- Modelled from the spec: the numeric values of the
`cumpsgemm::kernel_module_code` constants live in an internal header that is
not under `src/`.  Spec §3 fixes their structure: "Signatures are disjoint
bit-fields" over (element kind, reduced-precision family, error-correction
flag, opA-mode, opB-mode).  We realise each axis as its own bit-field:
family in bit 0, ec-flag in bit 1, opA in bits 2-3, opB in bits 4-5,
element kind in bit 6. -/
def half : Nat := 0

/-- Reduced-precision family bit: the tf32 ("reduced-mantissa") family. -/
def tf32 : Nat := 1

/-- Error-correction off. -/
def without_ec : Nat := 0

/-- Error-correction on. -/
def with_ec : Nat := 2

/-- Operand-A mode field (bits 2-3): as-is / column-major. -/
def op_a_col_major : Nat := 0

/-- Operand-A mode field: transposed / row-major. -/
def op_a_row_major : Nat := 4

/-- Operand-A mode field: conjugate-transposed. -/
def op_a_conjugate : Nat := 8

/-- Operand-B mode field (bits 4-5): as-is / column-major. -/
def op_b_col_major : Nat := 0

/-- Operand-B mode field: transposed / row-major. -/
def op_b_row_major : Nat := 16

/-- Operand-B mode field: conjugate-transposed. -/
def op_b_conjugate : Nat := 32

/-- Element kind field (bit 6): real single precision (`float`). -/
def s : Nat := 0

/-- Element kind field: complex single precision (`cuComplex`). -/
def c : Nat := 64

/-- Largest representable module code (all fields at their maxima). -/
def max_code : Nat := 127

end kernel_module_code

open kernel_module_code in
/-- `gen_module_code<T>` from `src/handle.cu`: derives the module-table key
from the compute mode, the two operand modes and the element kind, by ORing
the per-axis constants.  `default: break` cases contribute no bits, exactly
as in the source. -/
def gen_module_code (T : io_t) (op_A op_B : cublasOperation_t)
    (compute_mode : cuMpSGEMM_compute_mode_t) : Nat :=
  let code : Nat := 0
  let code := code |||
    (match compute_mode with
     | .CUMPSGEMM_FP16TC => half ||| without_ec
     | .CUMPSGEMM_FP16TCEC => half ||| with_ec
     | .CUMPSGEMM_TF32TC => tf32 ||| without_ec
     | .CUMPSGEMM_TF32TCEC => tf32 ||| with_ec
     | _ => 0)
  let code := code |||
    (match op_A with
     | .CUBLAS_OP_N => op_a_col_major
     | .CUBLAS_OP_T => op_a_row_major
     | .CUBLAS_OP_C => op_a_conjugate)
  let code := code |||
    (match op_B with
     | .CUBLAS_OP_N => op_b_col_major
     | .CUBLAS_OP_T => op_b_row_major
     | .CUBLAS_OP_C => op_b_conjugate)
  let code := code |||
    (match T with
     | .float => s
     | .cuComplex => c)
  code

/-- The (element kind, opA, opB, compute mode) tuples that can actually reach
the dispatcher through the public GEMM entry points: one of the four
tensor-core compute modes, and (per the assertions in `cuMpSGEMM_sgemm` /
`cuMpSGEMM_sgemm_strided_batch`) no conjugate-transpose operand for the real
(`float`) instantiation. -/
def producible_signature (T : io_t) (op_A op_B : cublasOperation_t)
    (compute_mode : cuMpSGEMM_compute_mode_t) : Bool :=
  (compute_mode == .CUMPSGEMM_FP16TC || compute_mode == .CUMPSGEMM_FP16TCEC ||
   compute_mode == .CUMPSGEMM_TF32TC || compute_mode == .CUMPSGEMM_TF32TCEC) &&
  (T == .cuComplex || (!(op_A == .CUBLAS_OP_C) && !(op_B == .CUBLAS_OP_C)))

/-- One compiled kernel variant (`cumpsgemm::gemm_module`): the shape
parameters every registration in `cuMpSGEMM_create` passes.  The launchable
entry point itself is opaque and not modelled. -/
structure gemm_module where
  smem_m : Nat
  smem_n : Nat
  smem_k : Nat
  frag_m : Nat
  frag_n : Nat
  frag_k : Nat
  block_size : Nat
deriving DecidableEq, Repr

/-- A module table (`gemm_module[max_code+1][num_kernel_candidates]` in the
handle): C++ array semantics, every slot holds a value. -/
abbrev module_table := Nat → Nat → gemm_module

/-- The engine handle (`cuMpSGEMM_handle`).  Its definition (`handle.hpp`) is
not under `src/`; the fields here are the ones `src/handle.cu` reads and
writes, with the statistics-ring cursor state modelled from spec §4.5. -/
structure cuMpSGEMM_handle where
  num_kernel_candidates : Nat
  num_sms : Nat
  gemm_module : module_table
  gemm_stridedBatch_module : module_table
  exp_stats_enabled : Bool
  counter_init_disabled : Bool
  current_buffer_id : Nat
  exp_stats_buffer_length : Nat

/-- Modelled from the spec: `cumpsgemm::exp_stats::get_next_buffer_id`
(its source, `exp_stats.cu`, is not under `src/`); spec §4.5 specifies
`advance()` as a monotonic, wrapping ring cursor. -/
def exp_stats.get_next_buffer_id (h : cuMpSGEMM_handle) : cuMpSGEMM_handle :=
  { h with current_buffer_id :=
      (h.current_buffer_id + 1) % h.exp_stats_buffer_length }

/-- Modelled from the spec: `cumpsgemm::exp_stats::get_current_buffer_id`
returns the current ring cursor. -/
def exp_stats.get_current_buffer_id (h : cuMpSGEMM_handle) : Nat :=
  h.current_buffer_id

/-- The observable device-side actions a dispatch call performs, in issue
order.  Kernel launches record the grid size, the operand base pointers
(as offsets, for the batch-decomposition stepping) and which statistics
slot their counter pointers reference (`none` = null counters). -/
inductive launch_event where
  | kernel_launch (grid_size : Nat) (a_off b_off c_off : Nat)
      (counters : Option Nat)
  | kernel_launch_stridedBatch (grid_size : Nat) (counters : Option Nat)
  | get_next_buffer (new_buffer_id : Nat)
  | init_counter (buffer_id : Nat)
  | download_exp_stats (buffer_id : Nat)
deriving DecidableEq, Repr

/-- The work-per-block estimate of the non-batched selection loop:
`m * n / (module.smem_m * module.smem_n)` (C++ unsigned division). -/
def gemm_work_estimate (m n : Nat) (md : gemm_module) : Nat :=
  m * n / (md.smem_m * md.smem_n)

/-- The work-per-block estimate of the strided-batch selection loop:
`m * n / (module.smem_m * module.smem_n) * batch_count`. -/
def gemm_stridedBatch_work_estimate (m n batch_count : Nat)
    (md : gemm_module) : Nat :=
  m * n / (md.smem_m * md.smem_n) * batch_count

/-- The kernel-variant selection loop shared by `cumpsgemm::gemm` and
`cumpsgemm::gemm_stridedBatch`: starting from `module_id = i`, scan
`remaining` candidates in registration order; return the first `module_id`
whose work-per-block estimate strictly exceeds `threshold`
(`handle->num_sms * 32`), and the fall-through value `i + remaining`
(i.e. `num_kernel_candidates - 1`, the last variant) otherwise. -/
def select_module_id (est : gemm_module → Nat) (cands : Nat → gemm_module)
    (threshold : Nat) : Nat → Nat → Nat
  | i, 0 => i
  | i, remaining + 1 =>
    if est (cands i) > threshold then i
    else select_module_id est cands threshold (i + 1) remaining

/-- The outcome of one dispatch call: the updated handle, the issued device
events, the returned status, and the value written through the
`used_kernel_modeule_id` out-parameter (spelled as in the source;
`none` = the caller passed a null pointer / nothing was written). -/
structure gemm_result where
  handle : cuMpSGEMM_handle
  events : List launch_event
  status : cublasStatus_t
  used_kernel_modeule_id : Option Nat

/-- `cumpsgemm::gemm<T>` from `src/handle.cu`: derive the module code, run
the selection loop (defaulting to the last candidate), report the chosen
stage through the out-parameter when provided, do the statistics-ring
bookkeeping (advance + zero the slot unless `counter_init_disabled`),
launch the kernel with grid
`ceil(m/smem_m) * ceil(n/smem_n)`, then download the statistics. -/
def gemm (T : io_t) (h : cuMpSGEMM_handle) (op_A op_B : cublasOperation_t)
    (m n k : Nat) (a_dmem_ptr lda b_dmem_ptr ldb c_dmem_ptr ldc : Nat)
    (compute_mode : cuMpSGEMM_compute_mode_t) (out_provided : Bool) :
    gemm_result :=
  let code := gen_module_code T op_A op_B compute_mode
  let cands := h.gemm_module code
  let module_id := select_module_id (gemm_work_estimate m n) cands
      (h.num_sms * 32) 0 (h.num_kernel_candidates - 1)
  let md := cands module_id
  let stats :=
    if h.exp_stats_enabled then
      let h1 := if !h.counter_init_disabled then exp_stats.get_next_buffer_id h
                else h
      let bid := exp_stats.get_current_buffer_id h1
      let evs := if !h.counter_init_disabled then
          [launch_event.get_next_buffer bid, launch_event.init_counter bid]
        else []
      (h1, evs, some bid)
    else (h, ([] : List launch_event), (none : Option Nat))
  let h1 := stats.1
  let launch := launch_event.kernel_launch
      (((m + md.smem_m - 1) / md.smem_m) * ((n + md.smem_n - 1) / md.smem_n))
      a_dmem_ptr b_dmem_ptr c_dmem_ptr stats.2.2
  let post :=
    if h1.exp_stats_enabled then
      [launch_event.download_exp_stats (exp_stats.get_current_buffer_id h1)]
    else []
  { handle := h1
    events := stats.2.1 ++ [launch] ++ post
    status := .CUBLAS_STATUS_SUCCESS
    used_kernel_modeule_id := if out_provided then some module_id else none }

/-- The decomposition loop of `cumpsgemm::gemm_stridedBatch` (taken when
`m * n > 1 << 24`): `batch_count` non-batched `cumpsgemm::gemm` calls, the
`i`-th with the operand pointers stepped by `i` times the strides, setting
`counter_init_disabled` after each call.  Arguments after `out_provided`
are the loop counter `i`, the remaining iteration count, the evolving
handle, the accumulated events, and the last out-parameter write. -/
def gemm_stridedBatch_decompose (T : io_t) (op_A op_B : cublasOperation_t)
    (m n k : Nat)
    (a_dmem_ptr lda stridea b_dmem_ptr ldb strideb c_dmem_ptr ldc stridec :
      Nat)
    (compute_mode : cuMpSGEMM_compute_mode_t) (out_provided : Bool) :
    Nat → Nat → cuMpSGEMM_handle → List launch_event → Option Nat →
    cuMpSGEMM_handle × List launch_event × Option Nat
  | _, 0, h, evs, out => (h, evs, out)
  | i, remaining + 1, h, evs, out =>
    let res := gemm T h op_A op_B m n k (a_dmem_ptr + i * stridea) lda
        (b_dmem_ptr + i * strideb) ldb (c_dmem_ptr + i * stridec) ldc
        compute_mode out_provided
    gemm_stridedBatch_decompose T op_A op_B m n k a_dmem_ptr lda stridea
        b_dmem_ptr ldb strideb c_dmem_ptr ldc stridec compute_mode
        out_provided (i + 1) remaining
        { res.handle with counter_init_disabled := true }
        (evs ++ res.events)
        (if out_provided then res.used_kernel_modeule_id else out)

/-- `cumpsgemm::gemm_stridedBatch<T>` from `src/handle.cu`.  Above the
large-problem cutoff (`m * n > 1 << 24`) the batch is decomposed into
`batch_count` non-batched calls and `counter_init_disabled` is cleared
after the loop.  Otherwise one batched kernel is selected (work estimate
multiplied by `batch_count`) and launched once with grid
`num_blocks_per_gemm * batch_count`, where `num_blocks_per_gemm` is
computed with the source's C++ operator precedence
`(m+smem_m-1)/smem_m * (n+smem_n-1)/smem_n`.  The statistics bookkeeping
in this branch advances and zeroes unconditionally. -/
def gemm_stridedBatch (T : io_t) (h : cuMpSGEMM_handle)
    (op_A op_B : cublasOperation_t) (m n k : Nat)
    (a_dmem_ptr lda stridea b_dmem_ptr ldb strideb c_dmem_ptr ldc stridec :
      Nat)
    (batch_count : Nat) (compute_mode : cuMpSGEMM_compute_mode_t)
    (out_provided : Bool) : gemm_result :=
  let code := gen_module_code T op_A op_B compute_mode
  let cands := h.gemm_stridedBatch_module code
  if m * n > 1 <<< 24 then
    let loop := gemm_stridedBatch_decompose T op_A op_B m n k a_dmem_ptr lda
        stridea b_dmem_ptr ldb strideb c_dmem_ptr ldc stridec compute_mode
        out_provided 0 batch_count h [] none
    { handle := { loop.1 with counter_init_disabled := false }
      events := loop.2.1
      status := .CUBLAS_STATUS_SUCCESS
      used_kernel_modeule_id := loop.2.2 }
  else
    let module_id := select_module_id
        (gemm_stridedBatch_work_estimate m n batch_count) cands
        (h.num_sms * 32) 0 (h.num_kernel_candidates - 1)
    let md := cands module_id
    let h1 := if h.exp_stats_enabled then exp_stats.get_next_buffer_id h
              else h
    let bid := exp_stats.get_current_buffer_id h1
    let pre :=
      if h.exp_stats_enabled then
        [launch_event.get_next_buffer bid, launch_event.init_counter bid]
      else []
    let counters : Option Nat := if h.exp_stats_enabled then some bid else none
    let num_blocks_per_gemm :=
      (m + md.smem_m - 1) / md.smem_m * (n + md.smem_n - 1) / md.smem_n
    let launch := launch_event.kernel_launch_stridedBatch
        (num_blocks_per_gemm * batch_count) counters
    let post :=
      if h1.exp_stats_enabled then
        [launch_event.download_exp_stats (exp_stats.get_current_buffer_id h1)]
      else []
    { handle := h1
      events := pre ++ [launch] ++ post
      status := .CUBLAS_STATUS_SUCCESS
      used_kernel_modeule_id := if out_provided then some module_id else none }

end cumpsgemm

namespace cumpsgemm

open kernel_module_code in
/-- The `(module code, stage)` pairs populated by the 104
`SET_GEMM_KERNEL_MODULE` lines of `cuMpSGEMM_create` (src/handle.cu), in
source order; each code is the OR of the per-axis constants exactly as the
macro expands it. -/
def gemm_module_registrations : List (Nat × Nat) := [
(half ||| with_ec ||| op_a_col_major ||| op_b_col_major ||| s, 0),
  (half ||| with_ec ||| op_a_col_major ||| op_b_col_major ||| s, 1),
  (tf32 ||| with_ec ||| op_a_col_major ||| op_b_col_major ||| s, 0),
  (tf32 ||| with_ec ||| op_a_col_major ||| op_b_col_major ||| s, 1),
  (half ||| without_ec ||| op_a_col_major ||| op_b_col_major ||| s, 0),
  (half ||| without_ec ||| op_a_col_major ||| op_b_col_major ||| s, 1),
  (tf32 ||| without_ec ||| op_a_col_major ||| op_b_col_major ||| s, 0),
  (tf32 ||| without_ec ||| op_a_col_major ||| op_b_col_major ||| s, 1),
  (half ||| with_ec ||| op_a_row_major ||| op_b_col_major ||| s, 0),
  (half ||| with_ec ||| op_a_row_major ||| op_b_col_major ||| s, 1),
  (tf32 ||| with_ec ||| op_a_row_major ||| op_b_col_major ||| s, 0),
  (tf32 ||| with_ec ||| op_a_row_major ||| op_b_col_major ||| s, 1),
  (half ||| without_ec ||| op_a_row_major ||| op_b_col_major ||| s, 0),
  (half ||| without_ec ||| op_a_row_major ||| op_b_col_major ||| s, 1),
  (tf32 ||| without_ec ||| op_a_row_major ||| op_b_col_major ||| s, 0),
  (tf32 ||| without_ec ||| op_a_row_major ||| op_b_col_major ||| s, 1),
  (half ||| with_ec ||| op_a_col_major ||| op_b_row_major ||| s, 0),
  (half ||| with_ec ||| op_a_col_major ||| op_b_row_major ||| s, 1),
  (tf32 ||| with_ec ||| op_a_col_major ||| op_b_row_major ||| s, 0),
  (tf32 ||| with_ec ||| op_a_col_major ||| op_b_row_major ||| s, 1),
  (half ||| without_ec ||| op_a_col_major ||| op_b_row_major ||| s, 0),
  (half ||| without_ec ||| op_a_col_major ||| op_b_row_major ||| s, 1),
  (tf32 ||| without_ec ||| op_a_col_major ||| op_b_row_major ||| s, 0),
  (tf32 ||| without_ec ||| op_a_col_major ||| op_b_row_major ||| s, 1),
  (half ||| with_ec ||| op_a_row_major ||| op_b_row_major ||| s, 0),
  (half ||| with_ec ||| op_a_row_major ||| op_b_row_major ||| s, 1),
  (tf32 ||| with_ec ||| op_a_row_major ||| op_b_row_major ||| s, 0),
  (tf32 ||| with_ec ||| op_a_row_major ||| op_b_row_major ||| s, 1),
  (half ||| without_ec ||| op_a_row_major ||| op_b_row_major ||| s, 0),
  (half ||| without_ec ||| op_a_row_major ||| op_b_row_major ||| s, 1),
  (tf32 ||| without_ec ||| op_a_row_major ||| op_b_row_major ||| s, 0),
  (tf32 ||| without_ec ||| op_a_row_major ||| op_b_row_major ||| s, 1),
  (half ||| with_ec ||| op_a_col_major ||| op_b_col_major ||| c, 0),
  (half ||| with_ec ||| op_a_col_major ||| op_b_col_major ||| c, 1),
  (tf32 ||| with_ec ||| op_a_col_major ||| op_b_col_major ||| c, 0),
  (tf32 ||| with_ec ||| op_a_col_major ||| op_b_col_major ||| c, 1),
  (half ||| without_ec ||| op_a_col_major ||| op_b_col_major ||| c, 0),
  (half ||| without_ec ||| op_a_col_major ||| op_b_col_major ||| c, 1),
  (tf32 ||| without_ec ||| op_a_col_major ||| op_b_col_major ||| c, 0),
  (tf32 ||| without_ec ||| op_a_col_major ||| op_b_col_major ||| c, 1),
  (half ||| with_ec ||| op_a_row_major ||| op_b_col_major ||| c, 0),
  (half ||| with_ec ||| op_a_row_major ||| op_b_col_major ||| c, 1),
  (tf32 ||| with_ec ||| op_a_row_major ||| op_b_col_major ||| c, 0),
  (tf32 ||| with_ec ||| op_a_row_major ||| op_b_col_major ||| c, 1),
  (half ||| without_ec ||| op_a_row_major ||| op_b_col_major ||| c, 0),
  (half ||| without_ec ||| op_a_row_major ||| op_b_col_major ||| c, 1),
  (tf32 ||| without_ec ||| op_a_row_major ||| op_b_col_major ||| c, 0),
  (tf32 ||| without_ec ||| op_a_row_major ||| op_b_col_major ||| c, 1),
  (half ||| with_ec ||| op_a_conjugate ||| op_b_col_major ||| c, 0),
  (half ||| with_ec ||| op_a_conjugate ||| op_b_col_major ||| c, 1),
  (tf32 ||| with_ec ||| op_a_conjugate ||| op_b_col_major ||| c, 0),
  (tf32 ||| with_ec ||| op_a_conjugate ||| op_b_col_major ||| c, 1),
  (half ||| without_ec ||| op_a_conjugate ||| op_b_col_major ||| c, 0),
  (half ||| without_ec ||| op_a_conjugate ||| op_b_col_major ||| c, 1),
  (tf32 ||| without_ec ||| op_a_conjugate ||| op_b_col_major ||| c, 0),
  (tf32 ||| without_ec ||| op_a_conjugate ||| op_b_col_major ||| c, 1),
  (half ||| with_ec ||| op_a_col_major ||| op_b_row_major ||| c, 0),
  (half ||| with_ec ||| op_a_col_major ||| op_b_row_major ||| c, 1),
  (tf32 ||| with_ec ||| op_a_col_major ||| op_b_row_major ||| c, 0),
  (tf32 ||| with_ec ||| op_a_col_major ||| op_b_row_major ||| c, 1),
  (half ||| without_ec ||| op_a_col_major ||| op_b_row_major ||| c, 0),
  (half ||| without_ec ||| op_a_col_major ||| op_b_row_major ||| c, 1),
  (tf32 ||| without_ec ||| op_a_col_major ||| op_b_row_major ||| c, 0),
  (tf32 ||| without_ec ||| op_a_col_major ||| op_b_row_major ||| c, 1),
  (half ||| with_ec ||| op_a_row_major ||| op_b_row_major ||| c, 0),
  (half ||| with_ec ||| op_a_row_major ||| op_b_row_major ||| c, 1),
  (tf32 ||| with_ec ||| op_a_row_major ||| op_b_row_major ||| c, 0),
  (tf32 ||| with_ec ||| op_a_row_major ||| op_b_row_major ||| c, 1),
  (half ||| without_ec ||| op_a_row_major ||| op_b_row_major ||| c, 0),
  (half ||| without_ec ||| op_a_row_major ||| op_b_row_major ||| c, 1),
  (tf32 ||| without_ec ||| op_a_row_major ||| op_b_row_major ||| c, 0),
  (tf32 ||| without_ec ||| op_a_row_major ||| op_b_row_major ||| c, 1),
  (half ||| with_ec ||| op_a_conjugate ||| op_b_row_major ||| c, 0),
  (half ||| with_ec ||| op_a_conjugate ||| op_b_row_major ||| c, 1),
  (tf32 ||| with_ec ||| op_a_conjugate ||| op_b_row_major ||| c, 0),
  (tf32 ||| with_ec ||| op_a_conjugate ||| op_b_row_major ||| c, 1),
  (half ||| without_ec ||| op_a_conjugate ||| op_b_row_major ||| c, 0),
  (half ||| without_ec ||| op_a_conjugate ||| op_b_row_major ||| c, 1),
  (tf32 ||| without_ec ||| op_a_conjugate ||| op_b_row_major ||| c, 0),
  (tf32 ||| without_ec ||| op_a_conjugate ||| op_b_row_major ||| c, 1),
  (half ||| with_ec ||| op_a_col_major ||| op_b_conjugate ||| c, 0),
  (half ||| with_ec ||| op_a_col_major ||| op_b_conjugate ||| c, 1),
  (tf32 ||| with_ec ||| op_a_col_major ||| op_b_conjugate ||| c, 0),
  (tf32 ||| with_ec ||| op_a_col_major ||| op_b_conjugate ||| c, 1),
  (half ||| without_ec ||| op_a_col_major ||| op_b_conjugate ||| c, 0),
  (half ||| without_ec ||| op_a_col_major ||| op_b_conjugate ||| c, 1),
  (tf32 ||| without_ec ||| op_a_col_major ||| op_b_conjugate ||| c, 0),
  (tf32 ||| without_ec ||| op_a_col_major ||| op_b_conjugate ||| c, 1),
  (half ||| with_ec ||| op_a_row_major ||| op_b_conjugate ||| c, 0),
  (half ||| with_ec ||| op_a_row_major ||| op_b_conjugate ||| c, 1),
  (tf32 ||| with_ec ||| op_a_row_major ||| op_b_conjugate ||| c, 0),
  (tf32 ||| with_ec ||| op_a_row_major ||| op_b_conjugate ||| c, 1),
  (half ||| without_ec ||| op_a_row_major ||| op_b_conjugate ||| c, 0),
  (half ||| without_ec ||| op_a_row_major ||| op_b_conjugate ||| c, 1),
  (tf32 ||| without_ec ||| op_a_row_major ||| op_b_conjugate ||| c, 0),
  (tf32 ||| without_ec ||| op_a_row_major ||| op_b_conjugate ||| c, 1),
  (half ||| with_ec ||| op_a_conjugate ||| op_b_conjugate ||| c, 0),
  (half ||| with_ec ||| op_a_conjugate ||| op_b_conjugate ||| c, 1),
  (tf32 ||| with_ec ||| op_a_conjugate ||| op_b_conjugate ||| c, 0),
  (tf32 ||| with_ec ||| op_a_conjugate ||| op_b_conjugate ||| c, 1),
  (half ||| without_ec ||| op_a_conjugate ||| op_b_conjugate ||| c, 0),
  (half ||| without_ec ||| op_a_conjugate ||| op_b_conjugate ||| c, 1),
  (tf32 ||| without_ec ||| op_a_conjugate ||| op_b_conjugate ||| c, 0),
  (tf32 ||| without_ec ||| op_a_conjugate ||| op_b_conjugate ||| c, 1)
]

open kernel_module_code in
/-- The `(module code, stage)` pairs populated by the 104
`SET_GEMM_STRIDEDBATCH_KERNEL_MODULE` lines of `cuMpSGEMM_create`
(src/handle.cu), in source order. -/
def gemm_stridedBatch_module_registrations : List (Nat × Nat) := [
(half ||| with_ec ||| op_a_col_major ||| op_b_col_major ||| s, 0),
  (half ||| with_ec ||| op_a_col_major ||| op_b_col_major ||| s, 1),
  (tf32 ||| with_ec ||| op_a_col_major ||| op_b_col_major ||| s, 0),
  (tf32 ||| with_ec ||| op_a_col_major ||| op_b_col_major ||| s, 1),
  (half ||| without_ec ||| op_a_col_major ||| op_b_col_major ||| s, 0),
  (half ||| without_ec ||| op_a_col_major ||| op_b_col_major ||| s, 1),
  (tf32 ||| without_ec ||| op_a_col_major ||| op_b_col_major ||| s, 0),
  (tf32 ||| without_ec ||| op_a_col_major ||| op_b_col_major ||| s, 1),
  (half ||| with_ec ||| op_a_row_major ||| op_b_col_major ||| s, 0),
  (half ||| with_ec ||| op_a_row_major ||| op_b_col_major ||| s, 1),
  (tf32 ||| with_ec ||| op_a_row_major ||| op_b_col_major ||| s, 0),
  (tf32 ||| with_ec ||| op_a_row_major ||| op_b_col_major ||| s, 1),
  (half ||| without_ec ||| op_a_row_major ||| op_b_col_major ||| s, 0),
  (half ||| without_ec ||| op_a_row_major ||| op_b_col_major ||| s, 1),
  (tf32 ||| without_ec ||| op_a_row_major ||| op_b_col_major ||| s, 0),
  (tf32 ||| without_ec ||| op_a_row_major ||| op_b_col_major ||| s, 1),
  (half ||| with_ec ||| op_a_col_major ||| op_b_row_major ||| s, 0),
  (half ||| with_ec ||| op_a_col_major ||| op_b_row_major ||| s, 1),
  (tf32 ||| with_ec ||| op_a_col_major ||| op_b_row_major ||| s, 0),
  (tf32 ||| with_ec ||| op_a_col_major ||| op_b_row_major ||| s, 1),
  (half ||| without_ec ||| op_a_col_major ||| op_b_row_major ||| s, 0),
  (half ||| without_ec ||| op_a_col_major ||| op_b_row_major ||| s, 1),
  (tf32 ||| without_ec ||| op_a_col_major ||| op_b_row_major ||| s, 0),
  (tf32 ||| without_ec ||| op_a_col_major ||| op_b_row_major ||| s, 1),
  (half ||| with_ec ||| op_a_row_major ||| op_b_row_major ||| s, 0),
  (half ||| with_ec ||| op_a_row_major ||| op_b_row_major ||| s, 1),
  (tf32 ||| with_ec ||| op_a_row_major ||| op_b_row_major ||| s, 0),
  (tf32 ||| with_ec ||| op_a_row_major ||| op_b_row_major ||| s, 1),
  (half ||| without_ec ||| op_a_row_major ||| op_b_row_major ||| s, 0),
  (half ||| without_ec ||| op_a_row_major ||| op_b_row_major ||| s, 1),
  (tf32 ||| without_ec ||| op_a_row_major ||| op_b_row_major ||| s, 0),
  (tf32 ||| without_ec ||| op_a_row_major ||| op_b_row_major ||| s, 1),
  (half ||| with_ec ||| op_a_col_major ||| op_b_col_major ||| c, 0),
  (half ||| with_ec ||| op_a_col_major ||| op_b_col_major ||| c, 1),
  (tf32 ||| with_ec ||| op_a_col_major ||| op_b_col_major ||| c, 0),
  (tf32 ||| with_ec ||| op_a_col_major ||| op_b_col_major ||| c, 1),
  (half ||| without_ec ||| op_a_col_major ||| op_b_col_major ||| c, 0),
  (half ||| without_ec ||| op_a_col_major ||| op_b_col_major ||| c, 1),
  (tf32 ||| without_ec ||| op_a_col_major ||| op_b_col_major ||| c, 0),
  (tf32 ||| without_ec ||| op_a_col_major ||| op_b_col_major ||| c, 1),
  (half ||| with_ec ||| op_a_row_major ||| op_b_col_major ||| c, 0),
  (half ||| with_ec ||| op_a_row_major ||| op_b_col_major ||| c, 1),
  (tf32 ||| with_ec ||| op_a_row_major ||| op_b_col_major ||| c, 0),
  (tf32 ||| with_ec ||| op_a_row_major ||| op_b_col_major ||| c, 1),
  (half ||| without_ec ||| op_a_row_major ||| op_b_col_major ||| c, 0),
  (half ||| without_ec ||| op_a_row_major ||| op_b_col_major ||| c, 1),
  (tf32 ||| without_ec ||| op_a_row_major ||| op_b_col_major ||| c, 0),
  (tf32 ||| without_ec ||| op_a_row_major ||| op_b_col_major ||| c, 1),
  (half ||| with_ec ||| op_a_conjugate ||| op_b_col_major ||| c, 0),
  (half ||| with_ec ||| op_a_conjugate ||| op_b_col_major ||| c, 1),
  (tf32 ||| with_ec ||| op_a_conjugate ||| op_b_col_major ||| c, 0),
  (tf32 ||| with_ec ||| op_a_conjugate ||| op_b_col_major ||| c, 1),
  (half ||| without_ec ||| op_a_conjugate ||| op_b_col_major ||| c, 0),
  (half ||| without_ec ||| op_a_conjugate ||| op_b_col_major ||| c, 1),
  (tf32 ||| without_ec ||| op_a_conjugate ||| op_b_col_major ||| c, 0),
  (tf32 ||| without_ec ||| op_a_conjugate ||| op_b_col_major ||| c, 1),
  (half ||| with_ec ||| op_a_col_major ||| op_b_row_major ||| c, 0),
  (half ||| with_ec ||| op_a_col_major ||| op_b_row_major ||| c, 1),
  (tf32 ||| with_ec ||| op_a_col_major ||| op_b_row_major ||| c, 0),
  (tf32 ||| with_ec ||| op_a_col_major ||| op_b_row_major ||| c, 1),
  (half ||| without_ec ||| op_a_col_major ||| op_b_row_major ||| c, 0),
  (half ||| without_ec ||| op_a_col_major ||| op_b_row_major ||| c, 1),
  (tf32 ||| without_ec ||| op_a_col_major ||| op_b_row_major ||| c, 0),
  (tf32 ||| without_ec ||| op_a_col_major ||| op_b_row_major ||| c, 1),
  (half ||| with_ec ||| op_a_row_major ||| op_b_row_major ||| c, 0),
  (half ||| with_ec ||| op_a_row_major ||| op_b_row_major ||| c, 1),
  (tf32 ||| with_ec ||| op_a_row_major ||| op_b_row_major ||| c, 0),
  (tf32 ||| with_ec ||| op_a_row_major ||| op_b_row_major ||| c, 1),
  (half ||| without_ec ||| op_a_row_major ||| op_b_row_major ||| c, 0),
  (half ||| without_ec ||| op_a_row_major ||| op_b_row_major ||| c, 1),
  (tf32 ||| without_ec ||| op_a_row_major ||| op_b_row_major ||| c, 0),
  (tf32 ||| without_ec ||| op_a_row_major ||| op_b_row_major ||| c, 1),
  (half ||| with_ec ||| op_a_conjugate ||| op_b_row_major ||| c, 0),
  (half ||| with_ec ||| op_a_conjugate ||| op_b_row_major ||| c, 1),
  (tf32 ||| with_ec ||| op_a_conjugate ||| op_b_row_major ||| c, 0),
  (tf32 ||| with_ec ||| op_a_conjugate ||| op_b_row_major ||| c, 1),
  (half ||| without_ec ||| op_a_conjugate ||| op_b_row_major ||| c, 0),
  (half ||| without_ec ||| op_a_conjugate ||| op_b_row_major ||| c, 1),
  (tf32 ||| without_ec ||| op_a_conjugate ||| op_b_row_major ||| c, 0),
  (tf32 ||| without_ec ||| op_a_conjugate ||| op_b_row_major ||| c, 1),
  (half ||| with_ec ||| op_a_col_major ||| op_b_conjugate ||| c, 0),
  (half ||| with_ec ||| op_a_col_major ||| op_b_conjugate ||| c, 1),
  (tf32 ||| with_ec ||| op_a_col_major ||| op_b_conjugate ||| c, 0),
  (tf32 ||| with_ec ||| op_a_col_major ||| op_b_conjugate ||| c, 1),
  (half ||| without_ec ||| op_a_col_major ||| op_b_conjugate ||| c, 0),
  (half ||| without_ec ||| op_a_col_major ||| op_b_conjugate ||| c, 1),
  (tf32 ||| without_ec ||| op_a_col_major ||| op_b_conjugate ||| c, 0),
  (tf32 ||| without_ec ||| op_a_col_major ||| op_b_conjugate ||| c, 1),
  (half ||| with_ec ||| op_a_row_major ||| op_b_conjugate ||| c, 0),
  (half ||| with_ec ||| op_a_row_major ||| op_b_conjugate ||| c, 1),
  (tf32 ||| with_ec ||| op_a_row_major ||| op_b_conjugate ||| c, 0),
  (tf32 ||| with_ec ||| op_a_row_major ||| op_b_conjugate ||| c, 1),
  (half ||| without_ec ||| op_a_row_major ||| op_b_conjugate ||| c, 0),
  (half ||| without_ec ||| op_a_row_major ||| op_b_conjugate ||| c, 1),
  (tf32 ||| without_ec ||| op_a_row_major ||| op_b_conjugate ||| c, 0),
  (tf32 ||| without_ec ||| op_a_row_major ||| op_b_conjugate ||| c, 1),
  (half ||| with_ec ||| op_a_conjugate ||| op_b_conjugate ||| c, 0),
  (half ||| with_ec ||| op_a_conjugate ||| op_b_conjugate ||| c, 1),
  (tf32 ||| with_ec ||| op_a_conjugate ||| op_b_conjugate ||| c, 0),
  (tf32 ||| with_ec ||| op_a_conjugate ||| op_b_conjugate ||| c, 1),
  (half ||| without_ec ||| op_a_conjugate ||| op_b_conjugate ||| c, 0),
  (half ||| without_ec ||| op_a_conjugate ||| op_b_conjugate ||| c, 1),
  (tf32 ||| without_ec ||| op_a_conjugate ||| op_b_conjugate ||| c, 0),
  (tf32 ||| without_ec ||| op_a_conjugate ||| op_b_conjugate ||| c, 1)
]

end cumpsgemm

namespace cumpsgemm

/-- The kernel module every `generate_gemm_module` /
`generate_gemm_stridedBatch_module` instantiation in `cuMpSGEMM_create`
produces: shared-memory tile 64×64×32, fragment 32×32×16, block size 128
(the parameters passed by every registration line). -/
def generated_module : gemm_module :=
  { smem_m := 64, smem_n := 64, smem_k := 32,
    frag_m := 32, frag_n := 32, frag_k := 16, block_size := 128 }

/-- Apply a registration list to a module table in source order: each
`(code, stage)` entry overwrites that slot with the generated module, as the
`SET_GEMM_*_MODULE` macro's assignment does. -/
def apply_registrations (regs : List (Nat × Nat)) (tbl : module_table) :
    module_table :=
  regs.foldl
    (fun t cs => fun code stage =>
      if code = cs.1 ∧ stage = cs.2 then generated_module else t code stage)
    tbl

end cumpsgemm

/-- `cuMpSGEMM_create` from `src/handle.cu`: writes the allocation result to
the caller's handle out-parameter; if the allocation yielded null, returns
`CUBLAS_STATUS_INTERNAL_ERROR` (the out-parameter then holds null, not a
partial handle); otherwise populates both module tables with all 208
registrations and returns `CUBLAS_STATUS_SUCCESS`.  `alloc` is the result of
`new cuMpSGEMM_handle` (`none` = allocation returned null). -/
def cuMpSGEMM_create (alloc : Option cumpsgemm.cuMpSGEMM_handle) :
    cublasStatus_t × Option cumpsgemm.cuMpSGEMM_handle :=
  match alloc with
  | none => (.CUBLAS_STATUS_INTERNAL_ERROR, none)
  | some h =>
    (.CUBLAS_STATUS_SUCCESS, some
      { h with
        gemm_module := cumpsgemm.apply_registrations
          cumpsgemm.gemm_module_registrations h.gemm_module
        gemm_stridedBatch_module := cumpsgemm.apply_registrations
          cumpsgemm.gemm_stridedBatch_module_registrations
          h.gemm_stridedBatch_module })

namespace cumpsgemm

/-- Recognise a non-batched kernel launch event. -/
def is_kernel_launch : launch_event → Bool
  | .kernel_launch .. => true
  | _ => false

/-- Recognise a strided-batch kernel launch event. -/
def is_kernel_launch_stridedBatch : launch_event → Bool
  | .kernel_launch_stridedBatch .. => true
  | _ => false

/-- Recognise a ring-cursor advance event. -/
def is_get_next_buffer : launch_event → Bool
  | .get_next_buffer _ => true
  | _ => false

/-- Recognise a statistics-slot zeroing event. -/
def is_init_counter : launch_event → Bool
  | .init_counter _ => true
  | _ => false

/-- The `(a, b, c)` base pointers of the non-batched kernel launches of a
trace, in issue order. -/
def kernel_launch_ptrs (evs : List launch_event) : List (Nat × Nat × Nat) :=
  evs.filterMap fun e =>
    match e with
    | .kernel_launch _ a b c _ => some (a, b, c)
    | _ => none

/-- The statistics slot referenced by each kernel launch (batched or not) of
a trace, in issue order. -/
def kernel_launch_counters (evs : List launch_event) : List (Option Nat) :=
  evs.filterMap fun e =>
    match e with
    | .kernel_launch _ _ _ _ cnt => some cnt
    | .kernel_launch_stridedBatch _ cnt => some cnt
    | _ => none

/-- The grid sizes of the strided-batch kernel launches of a trace. -/
def stridedBatch_launch_grids (evs : List launch_event) : List Nat :=
  evs.filterMap fun e =>
    match e with
    | .kernel_launch_stridedBatch g _ => some g
    | _ => none

end cumpsgemm

namespace hijack_control

/-- `get_lose_ratio` from `python/src/main.cpp`, applied to the
`(lose_count, total_count)` pair the binding reads from the referenced
statistics slot: `lose_count / total_count` when `total_count > 0`,
`0.` otherwise. -/
def get_lose_ratio (lose_count total_count : Nat) : ℚ :=
  if total_count > 0 then (lose_count : ℚ) / (total_count : ℚ) else 0

/-- `get_lost_rate` from the older binding (`src/unnamed/part_001`): sum the
`(lost, total)` pairs of all reported slots, then return
`lost_count / total_count` when `total_count > 0` and `0.` otherwise. -/
def get_lost_rate (l : List (Nat × Nat)) : ℚ :=
  let lost_count := (l.map Prod.fst).sum
  let total_count := (l.map Prod.snd).sum
  if total_count > 0 then (lost_count : ℚ) / (total_count : ℚ) else 0

/-- Modelled from the spec: the implementation of
`set_dynamic_launch_flag_buffer_by_exp_stats` lives in the dynamic-launch
source, which is not under `src/` (src/ holds only its declaration in
`cumpsgemm/hijack_control.hpp` and a no-op placeholder in the binding).
Spec §4.6/§8: the flag slot's boolean is set by comparing the
`flagged/total` ratio of each of the two referenced statistics slots
against `ratio_threshold`, "flag set if either ratio exceeds the
threshold"; the boundary `ratio = threshold` is exclusive (not set). -/
def set_dynamic_launch_flag_buffer_by_exp_stats
    (statsA statsB : Nat × Nat) (ratio_threshold : ℚ) : Bool :=
  decide (get_lose_ratio statsA.1 statsA.2 > ratio_threshold) ||
  decide (get_lose_ratio statsB.1 statsB.2 > ratio_threshold)

end hijack_control

namespace cumpsgemm

/-- A concrete handle used to instantiate the universally quantified
theorems below: the registered candidate count (stages 0 and 1), the tables
filled with the generated module, and an A100-like multiprocessor count. -/
def sample_handle : cuMpSGEMM_handle :=
  { num_kernel_candidates := 2
    num_sms := 108
    gemm_module := fun _ _ => generated_module
    gemm_stridedBatch_module := fun _ _ => generated_module
    exp_stats_enabled := false
    counter_init_disabled := false
    current_buffer_id := 0
    exp_stats_buffer_length := 10000 }

/-- `sample_handle` with statistics collection enabled. -/
def sample_handle_stats : cuMpSGEMM_handle :=
  { sample_handle with exp_stats_enabled := true }

/-- A two-stage candidate list whose registration order follows spec §3
(most-occupancy-friendly small tile first, large tile last): stage 0 is a
32×32 tile, stage 1 — the default — is the generated 64×64 tile. -/
def spec_ordered_cands : Nat → gemm_module :=
  fun i =>
    if i = 0 then
      { smem_m := 32, smem_n := 32, smem_k := 32,
        frag_m := 32, frag_n := 32, frag_k := 16, block_size := 128 }
    else generated_module

end cumpsgemm

namespace cumpsgemm

theorem select_module_id_ge (est : gemm_module → Nat)
    (cands : Nat → gemm_module) (threshold : Nat) :
    ∀ r i, i ≤ select_module_id est cands threshold i r := by
  intro r
  induction r with
  | zero => intro i; simp [select_module_id]
  | succ r ih =>
    intro i
    simp only [select_module_id]
    split
    · exact le_rfl
    · exact (Nat.le_succ i).trans (ih (i + 1))

theorem select_module_id_le (est : gemm_module → Nat)
    (cands : Nat → gemm_module) (threshold : Nat) :
    ∀ r i, select_module_id est cands threshold i r ≤ i + r := by
  intro r
  induction r with
  | zero => intro i; simp [select_module_id]
  | succ r ih =>
    intro i
    simp only [select_module_id]
    split
    · omega
    · have := ih (i + 1)
      omega

theorem select_module_id_eq_default (est : gemm_module → Nat)
    (cands : Nat → gemm_module) (threshold : Nat) :
    ∀ r i, (∀ j, i ≤ j → j < i + r → est (cands j) ≤ threshold) →
      select_module_id est cands threshold i r = i + r := by
  intro r
  induction r with
  | zero => intro i _; simp [select_module_id]
  | succ r ih =>
    intro i hnone
    simp only [select_module_id]
    have hi : est (cands i) ≤ threshold := hnone i le_rfl (by omega)
    rw [if_neg (by omega)]
    have := ih (i + 1) (fun j h1 h2 => hnone j (by omega) (by omega))
    omega

theorem select_module_id_eq_first (est : gemm_module → Nat)
    (cands : Nat → gemm_module) (threshold : Nat) :
    ∀ r i i0, i ≤ i0 → i0 < i + r → threshold < est (cands i0) →
      (∀ j, i ≤ j → j < i0 → est (cands j) ≤ threshold) →
      select_module_id est cands threshold i r = i0 := by
  intro r
  induction r with
  | zero => intro i i0 h1 h2 _ _; omega
  | succ r ih =>
    intro i i0 h1 h2 hhit hbelow
    simp only [select_module_id]
    rcases Nat.eq_or_lt_of_le h1 with heq | hlt
    · subst heq
      rw [if_pos hhit]
    · have hi : est (cands i) ≤ threshold := hbelow i le_rfl hlt
      rw [if_neg (by omega)]
      exact ih (i + 1) i0 hlt (by omega) hhit
        (fun j ha hb => hbelow j (by omega) hb)

theorem select_module_id_antitone (est est' : gemm_module → Nat)
    (cands : Nat → gemm_module) (threshold : Nat)
    (hmono : ∀ j, est (cands j) ≤ est' (cands j)) :
    ∀ r i, select_module_id est' cands threshold i r ≤
      select_module_id est cands threshold i r := by
  intro r
  induction r with
  | zero => intro i; simp [select_module_id]
  | succ r ih =>
    intro i
    by_cases hhi : est' (cands i) > threshold
    · calc select_module_id est' cands threshold i (r + 1) = i := by
            simp only [select_module_id]; rw [if_pos hhi]
        _ ≤ select_module_id est cands threshold i (r + 1) :=
            select_module_id_ge est cands threshold (r + 1) i
    · have hlo : ¬ est (cands i) > threshold := by
        have := hmono i
        omega
      simp only [select_module_id]
      rw [if_neg hhi, if_neg hlo]
      exact ih (i + 1)

end cumpsgemm

namespace cumpsgemm

/-- **C1** — For every GEMM call, the variant selection returns the last
registered variant (index `num_kernel_candidates - 1`) by default, and
otherwise the first stage among `0 .. num_kernel_candidates - 2` in
registration order whose work-per-block estimate
`m*n / (smem_m*smem_n)` (multiplied by `batch_count` in the strided-batch
form) strictly exceeds `num_sms * 32`; the chosen index is written to the
caller's `used_kernel_modeule_id` out-parameter exactly when it is
non-null. -/
theorem C1_variant_selection
    (h : cuMpSGEMM_handle) (T : io_t) (op_A op_B : cublasOperation_t)
    (m n k a_ptr lda b_ptr ldb c_ptr ldc stridea strideb stridec
      batch_count : Nat)
    (compute_mode : cuMpSGEMM_compute_mode_t) :
    ((∀ j, j < h.num_kernel_candidates - 1 →
        gemm_work_estimate m n
          (h.gemm_module (gen_module_code T op_A op_B compute_mode) j) ≤
        h.num_sms * 32) →
      select_module_id (gemm_work_estimate m n)
          (h.gemm_module (gen_module_code T op_A op_B compute_mode))
          (h.num_sms * 32) 0 (h.num_kernel_candidates - 1) =
        h.num_kernel_candidates - 1) ∧
    (∀ i0, i0 < h.num_kernel_candidates - 1 →
      h.num_sms * 32 < gemm_work_estimate m n
        (h.gemm_module (gen_module_code T op_A op_B compute_mode) i0) →
      (∀ j, j < i0 →
        gemm_work_estimate m n
          (h.gemm_module (gen_module_code T op_A op_B compute_mode) j) ≤
        h.num_sms * 32) →
      select_module_id (gemm_work_estimate m n)
          (h.gemm_module (gen_module_code T op_A op_B compute_mode))
          (h.num_sms * 32) 0 (h.num_kernel_candidates - 1) = i0) ∧
    ((gemm T h op_A op_B m n k a_ptr lda b_ptr ldb c_ptr ldc compute_mode
        true).used_kernel_modeule_id =
      some (select_module_id (gemm_work_estimate m n)
          (h.gemm_module (gen_module_code T op_A op_B compute_mode))
          (h.num_sms * 32) 0 (h.num_kernel_candidates - 1))) ∧
    ((gemm T h op_A op_B m n k a_ptr lda b_ptr ldb c_ptr ldc compute_mode
        false).used_kernel_modeule_id = none) ∧
    ((∀ j, j < h.num_kernel_candidates - 1 →
        gemm_stridedBatch_work_estimate m n batch_count
          (h.gemm_stridedBatch_module
            (gen_module_code T op_A op_B compute_mode) j) ≤
        h.num_sms * 32) →
      select_module_id (gemm_stridedBatch_work_estimate m n batch_count)
          (h.gemm_stridedBatch_module
            (gen_module_code T op_A op_B compute_mode))
          (h.num_sms * 32) 0 (h.num_kernel_candidates - 1) =
        h.num_kernel_candidates - 1) ∧
    (∀ i0, i0 < h.num_kernel_candidates - 1 →
      h.num_sms * 32 < gemm_stridedBatch_work_estimate m n batch_count
        (h.gemm_stridedBatch_module
          (gen_module_code T op_A op_B compute_mode) i0) →
      (∀ j, j < i0 →
        gemm_stridedBatch_work_estimate m n batch_count
          (h.gemm_stridedBatch_module
            (gen_module_code T op_A op_B compute_mode) j) ≤
        h.num_sms * 32) →
      select_module_id (gemm_stridedBatch_work_estimate m n batch_count)
          (h.gemm_stridedBatch_module
            (gen_module_code T op_A op_B compute_mode))
          (h.num_sms * 32) 0 (h.num_kernel_candidates - 1) = i0) ∧
    (¬ m * n > 1 <<< 24 →
      (gemm_stridedBatch T h op_A op_B m n k a_ptr lda stridea b_ptr ldb
          strideb c_ptr ldc stridec batch_count compute_mode
          true).used_kernel_modeule_id =
        some (select_module_id
          (gemm_stridedBatch_work_estimate m n batch_count)
          (h.gemm_stridedBatch_module
            (gen_module_code T op_A op_B compute_mode))
          (h.num_sms * 32) 0 (h.num_kernel_candidates - 1)) ∧
      (gemm_stridedBatch T h op_A op_B m n k a_ptr lda stridea b_ptr ldb
          strideb c_ptr ldc stridec batch_count compute_mode
          false).used_kernel_modeule_id = none) := by
  refine ⟨?_, ?_, rfl, rfl, ?_, ?_, ?_⟩
  · intro hnone
    have := select_module_id_eq_default (gemm_work_estimate m n)
      (h.gemm_module (gen_module_code T op_A op_B compute_mode))
      (h.num_sms * 32) (h.num_kernel_candidates - 1) 0
      (fun j _ hj => hnone j (by omega))
    simpa using this
  · intro i0 h1 h2 h3
    exact select_module_id_eq_first (gemm_work_estimate m n)
      (h.gemm_module (gen_module_code T op_A op_B compute_mode))
      (h.num_sms * 32) (h.num_kernel_candidates - 1) 0 i0 (Nat.zero_le i0)
      (by omega) h2 (fun j _ hj => h3 j hj)
  · intro hnone
    have := select_module_id_eq_default
      (gemm_stridedBatch_work_estimate m n batch_count)
      (h.gemm_stridedBatch_module (gen_module_code T op_A op_B compute_mode))
      (h.num_sms * 32) (h.num_kernel_candidates - 1) 0
      (fun j _ hj => hnone j (by omega))
    simpa using this
  · intro i0 h1 h2 h3
    exact select_module_id_eq_first
      (gemm_stridedBatch_work_estimate m n batch_count)
      (h.gemm_stridedBatch_module (gen_module_code T op_A op_B compute_mode))
      (h.num_sms * 32) (h.num_kernel_candidates - 1) 0 i0 (Nat.zero_le i0)
      (by omega) h2 (fun j _ hj => h3 j hj)
  · intro hle
    have hle2 : ¬ 16777216 < m * n := by simpa using hle
    constructor
    · simp [gemm_stridedBatch, hle2]
    · simp [gemm_stridedBatch, hle2]

/-- Witness for C1: at a 4096×4096 problem on the sample handle, stage 0
qualifies (4096 blocks of work per block estimate exceed 108·32) and is
selected; the out-parameter receives it. -/
theorem C1_variant_selection_witness :
    select_module_id (gemm_work_estimate 4096 4096)
        (sample_handle.gemm_module
          (gen_module_code .float .CUBLAS_OP_N .CUBLAS_OP_N
            .CUMPSGEMM_FP16TCEC))
        (sample_handle.num_sms * 32) 0
        (sample_handle.num_kernel_candidates - 1) = 0 :=
  (C1_variant_selection sample_handle .float .CUBLAS_OP_N .CUBLAS_OP_N
      4096 4096 4096 0 4096 0 4096 0 4096 0 0 0 1
      .CUMPSGEMM_FP16TCEC).2.1 0 (by decide) (by decide)
    (fun j hj => absurd hj (Nat.not_lt_zero j))

end cumpsgemm

namespace cumpsgemm

/-- **C4 (amended)** — For a fixed candidate table, threshold and candidate
count, the selected stage index is *antitone* in `m*n`: increasing `m*n`
can only move the selection from the last-registered (default) variant
toward stage 0 — with the spec's registration order (small tile first,
large tile last) that is from the large-tile end toward the small-tile
end — never the reverse.  Holds for both the non-batched and the
strided-batch estimate. -/
theorem C4_selection_antitone_in_mn
    (cands : Nat → gemm_module) (threshold num_kernel_candidates
      m n m' n' batch_count : Nat) (hmn : m * n ≤ m' * n') :
    select_module_id (gemm_work_estimate m' n') cands threshold 0
        (num_kernel_candidates - 1) ≤
      select_module_id (gemm_work_estimate m n) cands threshold 0
        (num_kernel_candidates - 1) ∧
    select_module_id (gemm_stridedBatch_work_estimate m' n' batch_count)
        cands threshold 0 (num_kernel_candidates - 1) ≤
      select_module_id (gemm_stridedBatch_work_estimate m n batch_count)
        cands threshold 0 (num_kernel_candidates - 1) := by
  constructor
  · exact select_module_id_antitone _ _ cands threshold
      (fun j => Nat.div_le_div_right hmn) (num_kernel_candidates - 1) 0
  · exact select_module_id_antitone _ _ cands threshold
      (fun j => Nat.mul_le_mul_right batch_count
        (Nat.div_le_div_right hmn)) (num_kernel_candidates - 1) 0

/-- Witness for C4 (amended): on the spec-ordered two-stage table with
threshold 32, growing the problem from 1024×32 to 1024×33 moves the
selection from stage 1 down to stage 0. -/
theorem C4_selection_antitone_in_mn_witness :
    (1024 * 32 ≤ 1024 * 33) ∧
    select_module_id (gemm_work_estimate 1024 33) spec_ordered_cands 32 0
        (2 - 1) ≤
      select_module_id (gemm_work_estimate 1024 32) spec_ordered_cands 32 0
        (2 - 1) :=
  ⟨by decide,
   (C4_selection_antitone_in_mn spec_ordered_cands 32 2 1024 32 1024 33 1
      (by decide)).1⟩

/-- Counterexample for C4 as stated: the claim says increasing `m*n` can
only move the selected stage from the small-tile end (stage 0, per the
spec's registration order) toward the large-tile end (the last stage),
i.e. the index can only grow.  On the spec-ordered table (stage 0 = 32×32
tile, stage 1 = 64×64 tile) with threshold 32 (one multiprocessor), the
1024×32 problem selects stage 1 while the larger 1024×33 problem selects
stage 0: the index strictly *decreases*. -/
theorem C4_counterexample :
    (1024 * 32 ≤ 1024 * 33) ∧
    select_module_id (gemm_work_estimate 1024 32) spec_ordered_cands 32 0
        (2 - 1) = 1 ∧
    select_module_id (gemm_work_estimate 1024 33) spec_ordered_cands 32 0
        (2 - 1) = 0 ∧
    ¬ (select_module_id (gemm_work_estimate 1024 32) spec_ordered_cands 32 0
          (2 - 1) ≤
       select_module_id (gemm_work_estimate 1024 33) spec_ordered_cands 32 0
          (2 - 1)) := by
  decide

end cumpsgemm

namespace cumpsgemm

theorem apply_registrations_preserve (regs : List (Nat × Nat)) :
    ∀ (tbl : module_table) (code stage : Nat),
      tbl code stage = generated_module →
      apply_registrations regs tbl code stage = generated_module := by
  induction regs with
  | nil => intro tbl code stage hbase; simpa [apply_registrations] using hbase
  | cons head tail ih =>
    intro tbl code stage hbase
    simp only [apply_registrations, List.foldl_cons]
    refine ih _ code stage ?_
    by_cases hcs : code = head.1 ∧ stage = head.2
    · simp [hcs]
    · simp [if_neg hcs, hbase]

theorem apply_registrations_of_mem (regs : List (Nat × Nat)) :
    ∀ (tbl : module_table) (code stage : Nat), (code, stage) ∈ regs →
      apply_registrations regs tbl code stage = generated_module := by
  induction regs with
  | nil => intro tbl code stage hmem; cases hmem
  | cons head tail ih =>
    intro tbl code stage hmem
    rcases List.mem_cons.mp hmem with hhead | htail
    · simp only [apply_registrations, List.foldl_cons]
      refine apply_registrations_preserve tail _ code stage ?_
      have : code = head.1 ∧ stage = head.2 := by
        constructor <;> simp [← hhead]
      simp [this]
    · simp only [apply_registrations, List.foldl_cons]
      exact ih _ code stage htail

end cumpsgemm

namespace cumpsgemm

/-- **C6** — Every signature producible by the public GEMM entry points is
registered at handle creation with at least the two stages 0 and 1, in both
the non-batched and the strided-batch module tables (so the created
handle's table slots hold the generated module), and the selection loop
never returns a stage index outside `0 .. num_kernel_candidates - 1`. -/
theorem C6_registration_coverage_and_range :
    (∀ T op_A op_B mode, producible_signature T op_A op_B mode = true →
      ((gen_module_code T op_A op_B mode, 0) ∈ gemm_module_registrations ∧
       (gen_module_code T op_A op_B mode, 1) ∈ gemm_module_registrations ∧
       (gen_module_code T op_A op_B mode, 0) ∈
         gemm_stridedBatch_module_registrations ∧
       (gen_module_code T op_A op_B mode, 1) ∈
         gemm_stridedBatch_module_registrations)) ∧
    (∀ (regs : List (Nat × Nat)) (tbl : module_table) (code stage : Nat),
      (code, stage) ∈ regs →
      apply_registrations regs tbl code stage = generated_module) ∧
    (∀ (est : gemm_module → Nat) (cands : Nat → gemm_module)
        (threshold num_kernel_candidates : Nat),
      1 ≤ num_kernel_candidates →
      select_module_id est cands threshold 0 (num_kernel_candidates - 1) <
        num_kernel_candidates) := by
  refine ⟨by decide, fun regs tbl code stage hmem =>
    apply_registrations_of_mem regs tbl code stage hmem, ?_⟩
  intro est cands threshold num_kernel_candidates hN
  have := select_module_id_le est cands threshold
    (num_kernel_candidates - 1) 0
  omega

/-- Witness for C6: the FP16-with-correction, as-is/as-is, real signature is
registered at stages 0 and 1, and a two-candidate selection stays in
range. -/
theorem C6_registration_coverage_and_range_witness :
    ((gen_module_code .float .CUBLAS_OP_N .CUBLAS_OP_N .CUMPSGEMM_FP16TCEC,
        0) ∈ gemm_module_registrations ∧
     (gen_module_code .float .CUBLAS_OP_N .CUBLAS_OP_N .CUMPSGEMM_FP16TCEC,
        1) ∈ gemm_module_registrations ∧
     (gen_module_code .float .CUBLAS_OP_N .CUBLAS_OP_N .CUMPSGEMM_FP16TCEC,
        0) ∈ gemm_stridedBatch_module_registrations ∧
     (gen_module_code .float .CUBLAS_OP_N .CUBLAS_OP_N .CUMPSGEMM_FP16TCEC,
        1) ∈ gemm_stridedBatch_module_registrations) ∧
    select_module_id (gemm_work_estimate 256 256) spec_ordered_cands 3456 0
      (2 - 1) < 2 :=
  ⟨C6_registration_coverage_and_range.1 .float .CUBLAS_OP_N .CUBLAS_OP_N
      .CUMPSGEMM_FP16TCEC (by decide),
   C6_registration_coverage_and_range.2.2 (gemm_work_estimate 256 256)
      spec_ordered_cands 3456 2 (by decide)⟩

end cumpsgemm

namespace cumpsgemm

theorem kernel_launch_ptrs_append (xs ys : List launch_event) :
    kernel_launch_ptrs (xs ++ ys) =
      kernel_launch_ptrs xs ++ kernel_launch_ptrs ys := by
  simp [kernel_launch_ptrs]

theorem kernel_launch_counters_append (xs ys : List launch_event) :
    kernel_launch_counters (xs ++ ys) =
      kernel_launch_counters xs ++ kernel_launch_counters ys := by
  simp [kernel_launch_counters]

theorem gemm_kernel_launch_ptrs (T : io_t) (h : cuMpSGEMM_handle)
    (op_A op_B : cublasOperation_t)
    (m n k a_ptr lda b_ptr ldb c_ptr ldc : Nat)
    (compute_mode : cuMpSGEMM_compute_mode_t) (out_provided : Bool) :
    kernel_launch_ptrs (gemm T h op_A op_B m n k a_ptr lda b_ptr ldb c_ptr
      ldc compute_mode out_provided).events = [(a_ptr, b_ptr, c_ptr)] := by
  by_cases he : h.exp_stats_enabled <;>
    by_cases hd : h.counter_init_disabled <;>
      simp [gemm, kernel_launch_ptrs, he, hd,
        exp_stats.get_next_buffer_id, exp_stats.get_current_buffer_id]

theorem gemm_no_stridedBatch_launch (T : io_t) (h : cuMpSGEMM_handle)
    (op_A op_B : cublasOperation_t)
    (m n k a_ptr lda b_ptr ldb c_ptr ldc : Nat)
    (compute_mode : cuMpSGEMM_compute_mode_t) (out_provided : Bool) :
    (gemm T h op_A op_B m n k a_ptr lda b_ptr ldb c_ptr ldc compute_mode
      out_provided).events.countP is_kernel_launch_stridedBatch = 0 := by
  by_cases he : h.exp_stats_enabled <;>
    by_cases hd : h.counter_init_disabled <;>
      simp [gemm, is_kernel_launch_stridedBatch, he, hd,
        exp_stats.get_next_buffer_id, exp_stats.get_current_buffer_id]

theorem gemm_stridedBatch_decompose_ptrs (T : io_t)
    (op_A op_B : cublasOperation_t) (m n k : Nat)
    (a_ptr lda stridea b_ptr ldb strideb c_ptr ldc stridec : Nat)
    (compute_mode : cuMpSGEMM_compute_mode_t) (out_provided : Bool) :
    ∀ (remaining i : Nat) (h : cuMpSGEMM_handle) (evs : List launch_event)
      (out : Option Nat),
      kernel_launch_ptrs (gemm_stridedBatch_decompose T op_A op_B m n k
        a_ptr lda stridea b_ptr ldb strideb c_ptr ldc stridec compute_mode
        out_provided i remaining h evs out).2.1 =
      kernel_launch_ptrs evs ++ (List.range' i remaining).map
        (fun j => (a_ptr + j * stridea, b_ptr + j * strideb,
          c_ptr + j * stridec)) := by
  intro remaining
  induction remaining with
  | zero => intro i h evs out; simp [gemm_stridedBatch_decompose]
  | succ r ih =>
    intro i h evs out
    simp only [gemm_stridedBatch_decompose]
    rw [ih, kernel_launch_ptrs_append, gemm_kernel_launch_ptrs,
      List.range'_succ]
    simp

theorem gemm_stridedBatch_decompose_no_batched_launch (T : io_t)
    (op_A op_B : cublasOperation_t) (m n k : Nat)
    (a_ptr lda stridea b_ptr ldb strideb c_ptr ldc stridec : Nat)
    (compute_mode : cuMpSGEMM_compute_mode_t) (out_provided : Bool) :
    ∀ (remaining i : Nat) (h : cuMpSGEMM_handle) (evs : List launch_event)
      (out : Option Nat),
      (gemm_stridedBatch_decompose T op_A op_B m n k a_ptr lda stridea
        b_ptr ldb strideb c_ptr ldc stridec compute_mode out_provided i
        remaining h evs out).2.1.countP is_kernel_launch_stridedBatch =
      evs.countP is_kernel_launch_stridedBatch := by
  intro remaining
  induction remaining with
  | zero => intro i h evs out; simp [gemm_stridedBatch_decompose]
  | succ r ih =>
    intro i h evs out
    simp only [gemm_stridedBatch_decompose]
    rw [ih, List.countP_append, gemm_no_stridedBatch_launch]
    omega

end cumpsgemm

namespace cumpsgemm

/-- **C2 (amended)** — For every strided-batched call with `m*n` strictly
above the large-problem cutoff `2^24`, `gemm_stridedBatch` issues exactly
`batch_count` non-batched kernel launches, the `i`-th with the operand
pointers stepped by `i` times the respective strides, and no batched
launch; for `m*n` at or below the cutoff it performs exactly one kernel
launch — the batched kernel, with grid `num_blocks_per_gemm * batch_count`
— and no non-batched launch. -/
theorem C2_batch_decomposition_threshold (T : io_t) (h : cuMpSGEMM_handle)
    (op_A op_B : cublasOperation_t) (m n k : Nat)
    (a_ptr lda stridea b_ptr ldb strideb c_ptr ldc stridec batch_count :
      Nat)
    (compute_mode : cuMpSGEMM_compute_mode_t) (out_provided : Bool) :
    (m * n > 1 <<< 24 →
      kernel_launch_ptrs (gemm_stridedBatch T h op_A op_B m n k a_ptr lda
        stridea b_ptr ldb strideb c_ptr ldc stridec batch_count
        compute_mode out_provided).events =
        (List.range batch_count).map
          (fun i => (a_ptr + i * stridea, b_ptr + i * strideb,
            c_ptr + i * stridec)) ∧
      (gemm_stridedBatch T h op_A op_B m n k a_ptr lda stridea b_ptr ldb
        strideb c_ptr ldc stridec batch_count compute_mode
        out_provided).events.countP is_kernel_launch_stridedBatch = 0) ∧
    (¬ m * n > 1 <<< 24 →
      kernel_launch_ptrs (gemm_stridedBatch T h op_A op_B m n k a_ptr lda
        stridea b_ptr ldb strideb c_ptr ldc stridec batch_count
        compute_mode out_provided).events = [] ∧
      (gemm_stridedBatch T h op_A op_B m n k a_ptr lda stridea b_ptr ldb
        strideb c_ptr ldc stridec batch_count compute_mode
        out_provided).events.countP is_kernel_launch_stridedBatch = 1 ∧
      stridedBatch_launch_grids (gemm_stridedBatch T h op_A op_B m n k
        a_ptr lda stridea b_ptr ldb strideb c_ptr ldc stridec batch_count
        compute_mode out_provided).events =
        [(m + (h.gemm_stridedBatch_module
            (gen_module_code T op_A op_B compute_mode)
            (select_module_id
              (gemm_stridedBatch_work_estimate m n batch_count)
              (h.gemm_stridedBatch_module
                (gen_module_code T op_A op_B compute_mode))
              (h.num_sms * 32) 0
              (h.num_kernel_candidates - 1))).smem_m - 1) /
          (h.gemm_stridedBatch_module
            (gen_module_code T op_A op_B compute_mode)
            (select_module_id
              (gemm_stridedBatch_work_estimate m n batch_count)
              (h.gemm_stridedBatch_module
                (gen_module_code T op_A op_B compute_mode))
              (h.num_sms * 32) 0
              (h.num_kernel_candidates - 1))).smem_m *
          (n + (h.gemm_stridedBatch_module
            (gen_module_code T op_A op_B compute_mode)
            (select_module_id
              (gemm_stridedBatch_work_estimate m n batch_count)
              (h.gemm_stridedBatch_module
                (gen_module_code T op_A op_B compute_mode))
              (h.num_sms * 32) 0
              (h.num_kernel_candidates - 1))).smem_n - 1) /
          (h.gemm_stridedBatch_module
            (gen_module_code T op_A op_B compute_mode)
            (select_module_id
              (gemm_stridedBatch_work_estimate m n batch_count)
              (h.gemm_stridedBatch_module
                (gen_module_code T op_A op_B compute_mode))
              (h.num_sms * 32) 0
              (h.num_kernel_candidates - 1))).smem_n * batch_count]) := by
  constructor
  · intro hgt
    constructor
    · simp only [gemm_stridedBatch, if_pos hgt]
      rw [gemm_stridedBatch_decompose_ptrs, List.range_eq_range']
      simp [kernel_launch_ptrs]
    · simp only [gemm_stridedBatch, if_pos hgt]
      rw [gemm_stridedBatch_decompose_no_batched_launch]
      simp
  · intro hle
    by_cases he : h.exp_stats_enabled
    · refine ⟨?_, ?_, ?_⟩ <;>
        simp only [gemm_stridedBatch, if_neg hle] <;>
        simp [he, kernel_launch_ptrs,
          is_kernel_launch_stridedBatch, stridedBatch_launch_grids,
          exp_stats.get_next_buffer_id, exp_stats.get_current_buffer_id]
    · refine ⟨?_, ?_, ?_⟩ <;>
        simp only [gemm_stridedBatch, if_neg hle] <;>
        simp [he, kernel_launch_ptrs,
          is_kernel_launch_stridedBatch, stridedBatch_launch_grids,
          exp_stats.get_next_buffer_id, exp_stats.get_current_buffer_id]

/-- Witness for C2 (amended): a 4097×4097 problem (just above the cutoff)
with two batch items yields the two stepped non-batched launches. -/
theorem C2_batch_decomposition_threshold_witness :
    kernel_launch_ptrs (gemm_stridedBatch .float sample_handle
      .CUBLAS_OP_N .CUBLAS_OP_N 4097 4097 64 1000 4097 17 2000 4097 19
      3000 4097 23 2 .CUMPSGEMM_TF32TC false).events =
    (List.range 2).map
      (fun i => (1000 + i * 17, 2000 + i * 19, 3000 + i * 23)) :=
  ((C2_batch_decomposition_threshold .float sample_handle .CUBLAS_OP_N
      .CUBLAS_OP_N 4097 4097 64 1000 4097 17 2000 4097 19 3000 4097 23 2
      .CUMPSGEMM_TF32TC false).1 (by decide)).1

/-- Counterexample for C2 as stated: the claim places `m*n = 2^24` ("at or
above the cutoff") on the decomposed side, but the source tests
`m * n > (1lu << 24)` strictly, so a 4096×4096 problem (`m*n` exactly
`2^24`) with `batch_count = 2` performs a single batched launch and zero
non-batched launches, not the two launches the claim requires. -/
theorem C2_counterexample :
    (4096 : Nat) * 4096 = 1 <<< 24 ∧
    kernel_launch_ptrs (gemm_stridedBatch .float sample_handle
      .CUBLAS_OP_N .CUBLAS_OP_N 4096 4096 4096 0 4096 100 0 4096 100 0
      4096 100 2 .CUMPSGEMM_FP16TCEC false).events = [] ∧
    (gemm_stridedBatch .float sample_handle .CUBLAS_OP_N .CUBLAS_OP_N 4096
      4096 4096 0 4096 100 0 4096 100 0 4096 100 2 .CUMPSGEMM_FP16TCEC
      false).events.countP is_kernel_launch_stridedBatch = 1 := by
  decide

end cumpsgemm

namespace cumpsgemm

theorem gemm_trace_counter_init_disabled (T : io_t) (h : cuMpSGEMM_handle)
    (op_A op_B : cublasOperation_t)
    (m n k a_ptr lda b_ptr ldb c_ptr ldc : Nat)
    (compute_mode : cuMpSGEMM_compute_mode_t) (out_provided : Bool)
    (he : h.exp_stats_enabled = true)
    (hd : h.counter_init_disabled = true) :
    (gemm T h op_A op_B m n k a_ptr lda b_ptr ldb c_ptr ldc compute_mode
      out_provided).handle = h ∧
    (gemm T h op_A op_B m n k a_ptr lda b_ptr ldb c_ptr ldc compute_mode
      out_provided).events.countP is_get_next_buffer = 0 ∧
    (gemm T h op_A op_B m n k a_ptr lda b_ptr ldb c_ptr ldc compute_mode
      out_provided).events.countP is_init_counter = 0 ∧
    kernel_launch_counters (gemm T h op_A op_B m n k a_ptr lda b_ptr ldb
      c_ptr ldc compute_mode out_provided).events =
      [some h.current_buffer_id] := by
  refine ⟨?_, ?_, ?_, ?_⟩ <;>
    simp [gemm, he, hd, is_get_next_buffer, is_init_counter,
      kernel_launch_counters, exp_stats.get_current_buffer_id]

theorem gemm_trace_fresh (T : io_t) (h : cuMpSGEMM_handle)
    (op_A op_B : cublasOperation_t)
    (m n k a_ptr lda b_ptr ldb c_ptr ldc : Nat)
    (compute_mode : cuMpSGEMM_compute_mode_t) (out_provided : Bool)
    (he : h.exp_stats_enabled = true)
    (hd : h.counter_init_disabled = false) :
    (gemm T h op_A op_B m n k a_ptr lda b_ptr ldb c_ptr ldc compute_mode
      out_provided).events =
      [launch_event.get_next_buffer
          ((h.current_buffer_id + 1) % h.exp_stats_buffer_length),
       launch_event.init_counter
          ((h.current_buffer_id + 1) % h.exp_stats_buffer_length),
       launch_event.kernel_launch
          (((m + (h.gemm_module (gen_module_code T op_A op_B compute_mode)
              (select_module_id (gemm_work_estimate m n)
                (h.gemm_module (gen_module_code T op_A op_B compute_mode))
                (h.num_sms * 32) 0
                (h.num_kernel_candidates - 1))).smem_m - 1) /
            (h.gemm_module (gen_module_code T op_A op_B compute_mode)
              (select_module_id (gemm_work_estimate m n)
                (h.gemm_module (gen_module_code T op_A op_B compute_mode))
                (h.num_sms * 32) 0
                (h.num_kernel_candidates - 1))).smem_m) *
           ((n + (h.gemm_module (gen_module_code T op_A op_B compute_mode)
              (select_module_id (gemm_work_estimate m n)
                (h.gemm_module (gen_module_code T op_A op_B compute_mode))
                (h.num_sms * 32) 0
                (h.num_kernel_candidates - 1))).smem_n - 1) /
            (h.gemm_module (gen_module_code T op_A op_B compute_mode)
              (select_module_id (gemm_work_estimate m n)
                (h.gemm_module (gen_module_code T op_A op_B compute_mode))
                (h.num_sms * 32) 0
                (h.num_kernel_candidates - 1))).smem_n))
          a_ptr b_ptr c_ptr
          (some ((h.current_buffer_id + 1) % h.exp_stats_buffer_length)),
       launch_event.download_exp_stats
          ((h.current_buffer_id + 1) % h.exp_stats_buffer_length)] ∧
    (gemm T h op_A op_B m n k a_ptr lda b_ptr ldb c_ptr ldc compute_mode
      out_provided).handle =
      { h with current_buffer_id :=
          (h.current_buffer_id + 1) % h.exp_stats_buffer_length } := by
  constructor <;>
    simp [gemm, he, hd, exp_stats.get_next_buffer_id,
      exp_stats.get_current_buffer_id]

theorem gemm_stridedBatch_decompose_trace_disabled (T : io_t)
    (op_A op_B : cublasOperation_t) (m n k : Nat)
    (a_ptr lda stridea b_ptr ldb strideb c_ptr ldc stridec : Nat)
    (compute_mode : cuMpSGEMM_compute_mode_t) (out_provided : Bool) :
    ∀ (remaining i : Nat) (h : cuMpSGEMM_handle) (evs : List launch_event)
      (out : Option Nat),
      h.exp_stats_enabled = true → h.counter_init_disabled = true →
      (gemm_stridedBatch_decompose T op_A op_B m n k a_ptr lda stridea
        b_ptr ldb strideb c_ptr ldc stridec compute_mode out_provided i
        remaining h evs out).1 = h ∧
      (gemm_stridedBatch_decompose T op_A op_B m n k a_ptr lda stridea
        b_ptr ldb strideb c_ptr ldc stridec compute_mode out_provided i
        remaining h evs out).2.1.countP is_get_next_buffer =
        evs.countP is_get_next_buffer ∧
      (gemm_stridedBatch_decompose T op_A op_B m n k a_ptr lda stridea
        b_ptr ldb strideb c_ptr ldc stridec compute_mode out_provided i
        remaining h evs out).2.1.countP is_init_counter =
        evs.countP is_init_counter ∧
      kernel_launch_counters (gemm_stridedBatch_decompose T op_A op_B m n k
        a_ptr lda stridea b_ptr ldb strideb c_ptr ldc stridec compute_mode
        out_provided i remaining h evs out).2.1 =
        kernel_launch_counters evs ++
          List.replicate remaining (some h.current_buffer_id) := by
  intro remaining
  induction remaining with
  | zero =>
    intro i h evs out he hd
    simp [gemm_stridedBatch_decompose]
  | succ r ih =>
    intro i h evs out he hd
    obtain ⟨hres, hadv, hinit, hcnt⟩ := gemm_trace_counter_init_disabled T
      h op_A op_B m n k (a_ptr + i * stridea) lda (b_ptr + i * strideb) ldb
      (c_ptr + i * stridec) ldc compute_mode out_provided he hd
    have hh2 : ({ (gemm T h op_A op_B m n k (a_ptr + i * stridea) lda
        (b_ptr + i * strideb) ldb (c_ptr + i * stridec) ldc compute_mode
        out_provided).handle with counter_init_disabled := true } :
        cuMpSGEMM_handle) = h := by
      rw [hres]
      cases h
      simp_all
    simp only [gemm_stridedBatch_decompose]
    rw [hh2]
    obtain ⟨ih1, ih2, ih3, ih4⟩ := ih (i + 1) h
      (evs ++ (gemm T h op_A op_B m n k (a_ptr + i * stridea) lda
        (b_ptr + i * strideb) ldb (c_ptr + i * stridec) ldc compute_mode
        out_provided).events)
      (if out_provided then (gemm T h op_A op_B m n k (a_ptr + i * stridea)
        lda (b_ptr + i * strideb) ldb (c_ptr + i * stridec) ldc
        compute_mode out_provided).used_kernel_modeule_id else out) he hd
    refine ⟨ih1, ?_, ?_, ?_⟩
    · rw [ih2, List.countP_append, hadv]
      omega
    · rw [ih3, List.countP_append, hinit]
      omega
    · rw [ih4, kernel_launch_counters_append, hcnt]
      simp [List.replicate_succ]

end cumpsgemm

namespace cumpsgemm

theorem gemm_stridedBatch_decompose_events_extend (T : io_t)
    (op_A op_B : cublasOperation_t) (m n k : Nat)
    (a_ptr lda stridea b_ptr ldb strideb c_ptr ldc stridec : Nat)
    (compute_mode : cuMpSGEMM_compute_mode_t) (out_provided : Bool) :
    ∀ (remaining i : Nat) (h : cuMpSGEMM_handle) (evs : List launch_event)
      (out : Option Nat),
      ∃ rest, (gemm_stridedBatch_decompose T op_A op_B m n k a_ptr lda
        stridea b_ptr ldb strideb c_ptr ldc stridec compute_mode
        out_provided i remaining h evs out).2.1 = evs ++ rest := by
  intro remaining
  induction remaining with
  | zero =>
    intro i h evs out
    exact ⟨[], by simp [gemm_stridedBatch_decompose]⟩
  | succ r ih =>
    intro i h evs out
    obtain ⟨rest, hrest⟩ := ih (i + 1)
      { (gemm T h op_A op_B m n k (a_ptr + i * stridea) lda
          (b_ptr + i * strideb) ldb (c_ptr + i * stridec) ldc compute_mode
          out_provided).handle with counter_init_disabled := true }
      (evs ++ (gemm T h op_A op_B m n k (a_ptr + i * stridea) lda
          (b_ptr + i * strideb) ldb (c_ptr + i * stridec) ldc compute_mode
          out_provided).events)
      (if out_provided then (gemm T h op_A op_B m n k (a_ptr + i * stridea)
          lda (b_ptr + i * strideb) ldb (c_ptr + i * stridec) ldc
          compute_mode out_provided).used_kernel_modeule_id else out)
    refine ⟨(gemm T h op_A op_B m n k (a_ptr + i * stridea) lda
        (b_ptr + i * strideb) ldb (c_ptr + i * stridec) ldc compute_mode
        out_provided).events ++ rest, ?_⟩
    simp only [gemm_stridedBatch_decompose]
    rw [hrest]
    simp

end cumpsgemm

namespace cumpsgemm

theorem gemm_stridedBatch_decompose_fresh_trace (T : io_t)
    (h : cuMpSGEMM_handle) (op_A op_B : cublasOperation_t) (m n k : Nat)
    (a_ptr lda stridea b_ptr ldb strideb c_ptr ldc stridec : Nat)
    (compute_mode : cuMpSGEMM_compute_mode_t) (out_provided : Bool)
    (bc : Nat) (he : h.exp_stats_enabled = true)
    (hd : h.counter_init_disabled = false) :
    (gemm_stridedBatch_decompose T op_A op_B m n k a_ptr lda stridea b_ptr
      ldb strideb c_ptr ldc stridec compute_mode out_provided 0 (bc + 1) h
      [] none).1.current_buffer_id =
      (h.current_buffer_id + 1) % h.exp_stats_buffer_length ∧
    (gemm_stridedBatch_decompose T op_A op_B m n k a_ptr lda stridea b_ptr
      ldb strideb c_ptr ldc stridec compute_mode out_provided 0 (bc + 1) h
      [] none).2.1.countP is_get_next_buffer = 1 ∧
    (gemm_stridedBatch_decompose T op_A op_B m n k a_ptr lda stridea b_ptr
      ldb strideb c_ptr ldc stridec compute_mode out_provided 0 (bc + 1) h
      [] none).2.1.countP is_init_counter = 1 ∧
    (gemm_stridedBatch_decompose T op_A op_B m n k a_ptr lda stridea b_ptr
      ldb strideb c_ptr ldc stridec compute_mode out_provided 0 (bc + 1) h
      [] none).2.1.take 2 =
      [launch_event.get_next_buffer
          ((h.current_buffer_id + 1) % h.exp_stats_buffer_length),
       launch_event.init_counter
          ((h.current_buffer_id + 1) % h.exp_stats_buffer_length)] ∧
    kernel_launch_counters (gemm_stridedBatch_decompose T op_A op_B m n k
      a_ptr lda stridea b_ptr ldb strideb c_ptr ldc stridec compute_mode
      out_provided 0 (bc + 1) h [] none).2.1 =
      List.replicate (bc + 1)
        (some ((h.current_buffer_id + 1) % h.exp_stats_buffer_length)) := by
  obtain ⟨hev1, hh1⟩ := gemm_trace_fresh T h op_A op_B m n k
    (a_ptr + 0 * stridea) lda (b_ptr + 0 * strideb) ldb
    (c_ptr + 0 * stridec) ldc compute_mode out_provided he hd
  have hen2 : ({ (gemm T h op_A op_B m n k (a_ptr + 0 * stridea) lda
      (b_ptr + 0 * strideb) ldb (c_ptr + 0 * stridec) ldc compute_mode
      out_provided).handle with counter_init_disabled := true } :
      cuMpSGEMM_handle).exp_stats_enabled = true := by
    rw [hh1]
    simpa using he
  have hdis2 : ({ (gemm T h op_A op_B m n k (a_ptr + 0 * stridea) lda
      (b_ptr + 0 * strideb) ldb (c_ptr + 0 * stridec) ldc compute_mode
      out_provided).handle with counter_init_disabled := true } :
      cuMpSGEMM_handle).counter_init_disabled = true := rfl
  have hcur2 : ({ (gemm T h op_A op_B m n k (a_ptr + 0 * stridea) lda
      (b_ptr + 0 * strideb) ldb (c_ptr + 0 * stridec) ldc compute_mode
      out_provided).handle with counter_init_disabled := true } :
      cuMpSGEMM_handle).current_buffer_id =
      (h.current_buffer_id + 1) % h.exp_stats_buffer_length := by
    rw [hh1]
  obtain ⟨l1, l2, l3, l4⟩ := gemm_stridedBatch_decompose_trace_disabled T
    op_A op_B m n k a_ptr lda stridea b_ptr ldb strideb c_ptr ldc stridec
    compute_mode out_provided bc 1
    ({ (gemm T h op_A op_B m n k (a_ptr + 0 * stridea) lda
        (b_ptr + 0 * strideb) ldb (c_ptr + 0 * stridec) ldc compute_mode
        out_provided).handle with counter_init_disabled := true })
    ([] ++ (gemm T h op_A op_B m n k (a_ptr + 0 * stridea) lda
        (b_ptr + 0 * strideb) ldb (c_ptr + 0 * stridec) ldc compute_mode
        out_provided).events)
    (if out_provided then (gemm T h op_A op_B m n k (a_ptr + 0 * stridea)
        lda (b_ptr + 0 * strideb) ldb (c_ptr + 0 * stridec) ldc
        compute_mode out_provided).used_kernel_modeule_id else none)
    hen2 hdis2
  obtain ⟨rest, hrest⟩ := gemm_stridedBatch_decompose_events_extend T op_A
    op_B m n k a_ptr lda stridea b_ptr ldb strideb c_ptr ldc stridec
    compute_mode out_provided bc 1
    ({ (gemm T h op_A op_B m n k (a_ptr + 0 * stridea) lda
        (b_ptr + 0 * strideb) ldb (c_ptr + 0 * stridec) ldc compute_mode
        out_provided).handle with counter_init_disabled := true })
    ([] ++ (gemm T h op_A op_B m n k (a_ptr + 0 * stridea) lda
        (b_ptr + 0 * strideb) ldb (c_ptr + 0 * stridec) ldc compute_mode
        out_provided).events)
    (if out_provided then (gemm T h op_A op_B m n k (a_ptr + 0 * stridea)
        lda (b_ptr + 0 * strideb) ldb (c_ptr + 0 * stridec) ldc
        compute_mode out_provided).used_kernel_modeule_id else none)
  refine ⟨?_, ?_, ?_, ?_, ?_⟩
  · simp only [gemm_stridedBatch_decompose]
    rw [l1, hcur2]
  · simp only [gemm_stridedBatch_decompose]
    rw [l2, List.countP_append, hev1]
    simp [is_get_next_buffer]
  · simp only [gemm_stridedBatch_decompose]
    rw [l3, List.countP_append, hev1]
    simp [is_init_counter]
  · simp only [gemm_stridedBatch_decompose]
    rw [hrest, hev1]
    simp
  · simp only [gemm_stridedBatch_decompose]
    rw [l4, kernel_launch_counters_append, hev1, hcur2]
    simp [kernel_launch_counters, List.replicate_succ]

end cumpsgemm

namespace cumpsgemm

/-- **C5** — In every decomposed strided-batched call (`m*n` above the
cutoff, statistics enabled, at least one batch item, normal entry with
`counter_init_disabled` false): the whole call advances the statistics
ring cursor exactly once and zeroes exactly one slot, both at the start
(the first sub-call); every sub-call's kernel launch references that same
slot; and on return the handle's cursor rests on that slot while
`counter_init_disabled` is false — the flag is false on return regardless
of its value on entry. -/
theorem C5_decomposed_batch_stats_sharing (T : io_t)
    (h : cuMpSGEMM_handle) (op_A op_B : cublasOperation_t) (m n k : Nat)
    (a_ptr lda stridea b_ptr ldb strideb c_ptr ldc stridec batch_count :
      Nat)
    (compute_mode : cuMpSGEMM_compute_mode_t) (out_provided : Bool)
    (he : h.exp_stats_enabled = true)
    (hgt : m * n > 1 <<< 24)
    (hb : 1 ≤ batch_count) :
    (∀ entry : Bool,
      (gemm_stridedBatch T { h with counter_init_disabled := entry } op_A
        op_B m n k a_ptr lda stridea b_ptr ldb strideb c_ptr ldc stridec
        batch_count compute_mode
        out_provided).handle.counter_init_disabled = false) ∧
    (h.counter_init_disabled = false →
      (gemm_stridedBatch T h op_A op_B m n k a_ptr lda stridea b_ptr ldb
        strideb c_ptr ldc stridec batch_count compute_mode
        out_provided).events.countP is_get_next_buffer = 1 ∧
      (gemm_stridedBatch T h op_A op_B m n k a_ptr lda stridea b_ptr ldb
        strideb c_ptr ldc stridec batch_count compute_mode
        out_provided).events.countP is_init_counter = 1 ∧
      (gemm_stridedBatch T h op_A op_B m n k a_ptr lda stridea b_ptr ldb
        strideb c_ptr ldc stridec batch_count compute_mode
        out_provided).events.take 2 =
        [launch_event.get_next_buffer
            ((h.current_buffer_id + 1) % h.exp_stats_buffer_length),
         launch_event.init_counter
            ((h.current_buffer_id + 1) % h.exp_stats_buffer_length)] ∧
      kernel_launch_counters (gemm_stridedBatch T h op_A op_B m n k a_ptr
        lda stridea b_ptr ldb strideb c_ptr ldc stridec batch_count
        compute_mode out_provided).events =
        List.replicate batch_count
          (some ((h.current_buffer_id + 1) % h.exp_stats_buffer_length)) ∧
      (gemm_stridedBatch T h op_A op_B m n k a_ptr lda stridea b_ptr ldb
        strideb c_ptr ldc stridec batch_count compute_mode
        out_provided).handle.current_buffer_id =
        (h.current_buffer_id + 1) % h.exp_stats_buffer_length ∧
      (gemm_stridedBatch T h op_A op_B m n k a_ptr lda stridea b_ptr ldb
        strideb c_ptr ldc stridec batch_count compute_mode
        out_provided).handle.counter_init_disabled = false) := by
  constructor
  · intro entry
    simp only [gemm_stridedBatch, if_pos hgt]
  · intro hd
    obtain ⟨bc, rfl⟩ : ∃ bc, batch_count = bc + 1 :=
      ⟨batch_count - 1, by omega⟩
    obtain ⟨f1, f2, f3, f4, f5⟩ := gemm_stridedBatch_decompose_fresh_trace
      T h op_A op_B m n k a_ptr lda stridea b_ptr ldb strideb c_ptr ldc
      stridec compute_mode out_provided bc he hd
    refine ⟨?_, ?_, ?_, ?_, ?_, ?_⟩ <;>
      simp only [gemm_stridedBatch, if_pos hgt] <;>
      simp [f1, f2, f3, f4, f5]

/-- Witness for C5: a concrete decomposed call (4097×4097, two batch
items) on the statistics-enabled sample handle: one advance, one zeroing,
both launches on slot 1, cursor left at 1, flag cleared. -/
theorem C5_decomposed_batch_stats_sharing_witness :
    (gemm_stridedBatch .float sample_handle_stats .CUBLAS_OP_N .CUBLAS_OP_N
      4097 4097 64 0 4097 17 0 4097 19 0 4097 23 2 .CUMPSGEMM_FP16TCEC
      false).events.countP is_get_next_buffer = 1 ∧
    kernel_launch_counters (gemm_stridedBatch .float sample_handle_stats
      .CUBLAS_OP_N .CUBLAS_OP_N 4097 4097 64 0 4097 17 0 4097 19 0 4097 23
      2 .CUMPSGEMM_FP16TCEC false).events = List.replicate 2 (some 1) :=
  ⟨((C5_decomposed_batch_stats_sharing .float sample_handle_stats
      .CUBLAS_OP_N .CUBLAS_OP_N 4097 4097 64 0 4097 17 0 4097 19 0 4097 23
      2 .CUMPSGEMM_FP16TCEC false (by decide) (by decide) (by decide)).2
      (by decide)).1,
   by
    have := ((C5_decomposed_batch_stats_sharing .float sample_handle_stats
      .CUBLAS_OP_N .CUBLAS_OP_N 4097 4097 64 0 4097 17 0 4097 19 0 4097 23
      2 .CUMPSGEMM_FP16TCEC false (by decide) (by decide) (by decide)).2
      (by decide)).2.2.2.1
    simpa using this⟩

end cumpsgemm

/-- **C3** — For all valid tuples (element kind, opA-mode, opB-mode,
compute mode) accepted by the public GEMM entry points, `gen_module_code`
is injective (distinct input tuples map to distinct module-table keys),
and every valid combination maps to a key inside the module table
(`code ≤ max_code`, the source's own assertion). -/
theorem C3_gen_module_code_injective :
    (∀ T₁ op_A₁ op_B₁ mode₁ T₂ op_A₂ op_B₂ mode₂,
      cumpsgemm.producible_signature T₁ op_A₁ op_B₁ mode₁ = true →
      cumpsgemm.producible_signature T₂ op_A₂ op_B₂ mode₂ = true →
      cumpsgemm.gen_module_code T₁ op_A₁ op_B₁ mode₁ =
        cumpsgemm.gen_module_code T₂ op_A₂ op_B₂ mode₂ →
      (T₁ = T₂ ∧ op_A₁ = op_A₂ ∧ op_B₁ = op_B₂ ∧ mode₁ = mode₂)) ∧
    (∀ T op_A op_B mode,
      cumpsgemm.producible_signature T op_A op_B mode = true →
      cumpsgemm.gen_module_code T op_A op_B mode ≤
        cumpsgemm.kernel_module_code.max_code) := by
  constructor
  · decide
  · decide

/-- Witness for C3: the theorem applied at concrete valid tuples. -/
theorem C3_gen_module_code_injective_witness :
    (io_t.float = io_t.float ∧
     cublasOperation_t.CUBLAS_OP_N = cublasOperation_t.CUBLAS_OP_N ∧
     cublasOperation_t.CUBLAS_OP_T = cublasOperation_t.CUBLAS_OP_T ∧
     cuMpSGEMM_compute_mode_t.CUMPSGEMM_FP16TCEC =
       cuMpSGEMM_compute_mode_t.CUMPSGEMM_FP16TCEC) ∧
    cumpsgemm.gen_module_code .float .CUBLAS_OP_N .CUBLAS_OP_T
        .CUMPSGEMM_FP16TCEC ≤ cumpsgemm.kernel_module_code.max_code :=
  ⟨C3_gen_module_code_injective.1 .float .CUBLAS_OP_N .CUBLAS_OP_T
      .CUMPSGEMM_FP16TCEC .float .CUBLAS_OP_N .CUBLAS_OP_T
      .CUMPSGEMM_FP16TCEC (by decide) (by decide) (by decide),
   C3_gen_module_code_injective.2 .float .CUBLAS_OP_N .CUBLAS_OP_T
      .CUMPSGEMM_FP16TCEC (by decide)⟩

namespace cumpsgemm

/-- **C7** — Both dispatch functions surface no error of their own: for
every input — including degenerate shapes such as `m = n = k = 0`, which
are not validated at this layer — `cumpsgemm::gemm` and
`cumpsgemm::gemm_stridedBatch` return `CUBLAS_STATUS_SUCCESS`; failure
detection is left to the underlying launch mechanism. -/
theorem C7_dispatch_always_succeeds (T : io_t) (h : cuMpSGEMM_handle)
    (op_A op_B : cublasOperation_t) (m n k : Nat)
    (a_ptr lda stridea b_ptr ldb strideb c_ptr ldc stridec batch_count :
      Nat)
    (compute_mode : cuMpSGEMM_compute_mode_t) (out_provided : Bool) :
    (gemm T h op_A op_B m n k a_ptr lda b_ptr ldb c_ptr ldc compute_mode
      out_provided).status = .CUBLAS_STATUS_SUCCESS ∧
    (gemm_stridedBatch T h op_A op_B m n k a_ptr lda stridea b_ptr ldb
      strideb c_ptr ldc stridec batch_count compute_mode
      out_provided).status = .CUBLAS_STATUS_SUCCESS := by
  constructor
  · simp [gemm]
  · by_cases hgt : m * n > 1 <<< 24
    · simp only [gemm_stridedBatch, if_pos hgt]
    · simp only [gemm_stridedBatch, if_neg hgt]

end cumpsgemm

/-- **C8** — If allocation fails during handle creation,
`cuMpSGEMM_create` returns `CUBLAS_STATUS_INTERNAL_ERROR` and the caller's
out-parameter holds null rather than a partially constructed handle;
otherwise it returns `CUBLAS_STATUS_SUCCESS` with the fully populated
handle. -/
theorem C8_create_allocation_failure :
    cuMpSGEMM_create none =
      (.CUBLAS_STATUS_INTERNAL_ERROR, none) ∧
    (∀ h0, cuMpSGEMM_create (some h0) =
      (.CUBLAS_STATUS_SUCCESS, some
        { h0 with
          gemm_module := cumpsgemm.apply_registrations
            cumpsgemm.gemm_module_registrations h0.gemm_module
          gemm_stridedBatch_module := cumpsgemm.apply_registrations
            cumpsgemm.gemm_stridedBatch_module_registrations
            h0.gemm_stridedBatch_module })) :=
  ⟨rfl, fun h0 => rfl⟩

/-- **C9** — The dynamic-launch-flag derivation sets the flag slot's
boolean to true exactly when the larger of the two slots' flagged/total
ratios strictly exceeds the ratio threshold; at the boundary
`max = threshold` the flag is not set (exclusive comparison). -/
theorem C9_dynamic_flag_max_ratio (statsA statsB : Nat × Nat) (t : ℚ) :
    (hijack_control.set_dynamic_launch_flag_buffer_by_exp_stats statsA
      statsB t = true ↔
      t < max (hijack_control.get_lose_ratio statsA.1 statsA.2)
        (hijack_control.get_lose_ratio statsB.1 statsB.2)) ∧
    (max (hijack_control.get_lose_ratio statsA.1 statsA.2)
        (hijack_control.get_lose_ratio statsB.1 statsB.2) = t →
      hijack_control.set_dynamic_launch_flag_buffer_by_exp_stats statsA
        statsB t = false) := by
  constructor
  · simp [hijack_control.set_dynamic_launch_flag_buffer_by_exp_stats,
      lt_max_iff]
  · intro hmax
    simp only [hijack_control.set_dynamic_launch_flag_buffer_by_exp_stats,
      Bool.or_eq_false_iff, decide_eq_false_iff_not, not_lt]
    constructor
    · rw [← hmax]
      exact le_max_left _ _
    · rw [← hmax]
      exact le_max_right _ _

/-- Witness for C9: slots with ratios 1/2 and 1/4 against threshold 1/2 —
the maximum equals the threshold and the flag stays false; against
threshold 1/4 the flag is set. -/
theorem C9_dynamic_flag_max_ratio_witness :
    hijack_control.set_dynamic_launch_flag_buffer_by_exp_stats (1, 2)
      (1, 4) (1 / 2) = false ∧
    (hijack_control.set_dynamic_launch_flag_buffer_by_exp_stats (1, 2)
      (1, 4) (1 / 4) = true ↔
      (1 : ℚ) / 4 < max (hijack_control.get_lose_ratio 1 2)
        (hijack_control.get_lose_ratio 1 4)) :=
  ⟨(C9_dynamic_flag_max_ratio (1, 2) (1, 4) (1 / 2)).2
      (by
        show max (hijack_control.get_lose_ratio 1 2)
          (hijack_control.get_lose_ratio 1 4) = 1 / 2
        have h1 : hijack_control.get_lose_ratio 1 2 = 1 / 2 := by
          norm_num [hijack_control.get_lose_ratio]
        have h2 : hijack_control.get_lose_ratio 1 4 = 1 / 4 := by
          norm_num [hijack_control.get_lose_ratio]
        rw [h1, h2]
        exact max_eq_left (by norm_num)),
   (C9_dynamic_flag_max_ratio (1, 2) (1, 4) (1 / 4)).1⟩

/-- **C10** — The control-surface lose-ratio queries guard the division:
for a zero total count both `get_lose_ratio` and the aggregate
`get_lost_rate` return 0 instead of dividing, and for a positive total
they return flagged count divided by total count. -/
theorem C10_lose_ratio_zero_total_guard :
    (∀ lose_count total_count : Nat,
      (total_count = 0 →
        hijack_control.get_lose_ratio lose_count total_count = 0) ∧
      (0 < total_count →
        hijack_control.get_lose_ratio lose_count total_count =
          (lose_count : ℚ) / (total_count : ℚ))) ∧
    (∀ l : List (Nat × Nat),
      ((l.map Prod.snd).sum = 0 → hijack_control.get_lost_rate l = 0) ∧
      (0 < (l.map Prod.snd).sum →
        hijack_control.get_lost_rate l =
          ((l.map Prod.fst).sum : ℚ) / ((l.map Prod.snd).sum : ℚ))) := by
  constructor
  · intro lose_count total_count
    constructor
    · intro h0
      simp [hijack_control.get_lose_ratio, h0]
    · intro hpos
      simp [hijack_control.get_lose_ratio, hpos]
  · intro l
    constructor
    · intro h0
      simp [hijack_control.get_lost_rate, h0]
    · intro hpos
      simp [hijack_control.get_lost_rate, hpos]

/-- Witness for C10: a slot read of (3, 0) yields ratio 0; (3, 4) yields
3/4; an aggregate over [(1,0),(2,0)] with zero total yields 0. -/
theorem C10_lose_ratio_zero_total_guard_witness :
    hijack_control.get_lose_ratio 3 0 = 0 ∧
    hijack_control.get_lose_ratio 3 4 = (3 : ℚ) / (4 : ℚ) ∧
    hijack_control.get_lost_rate [(1, 0), (2, 0)] = 0 :=
  ⟨(C10_lose_ratio_zero_total_guard.1 3 0).1 rfl,
   (C10_lose_ratio_zero_total_guard.1 3 4).2 (by decide),
   (C10_lose_ratio_zero_total_guard.2 [(1, 0), (2, 0)]).1 (by decide)⟩
